import Mathlib

/-
Verification of the correlation / enrichment / fusion / analysis-routing core
of the rootiq incident-analysis pipeline.

The Python sources are shallowly embedded as executable Lean definitions:
  - enrichment/enrichment_layer.py : correlation ids, anomaly scores
  - fusion/fusion_layer.py         : temporal / semantic / causal contexts,
                                     fusion score
  - rca/rca_engine.py              : LLM response parsing, confidence-gated
                                     analysis routing
  - agentic/agentic_ai.py          : deep-analysis confidence synthesis
Floating point numbers are embedded as rationals, timestamps as rational
seconds, database tables as lists of rows.  External collaborators (the LLM,
the JSON decoder, uuid generation) are passed in as function parameters, so
theorems quantify over their behaviour.
-/

/-- A raw telemetry signal (database/models.py RawEvent).  Metadata is only
ever inspected through its key set, so only the keys are kept. -/
structure RawEvent where
  id : Nat
  source : String
  event_type : String
  severity : String
  message : String
  metadata_keys : List String
  timestamp : ℚ
  deriving DecidableEq, Repr

/-- An enriched signal (database/models.py EnrichedEvent): wraps one RawEvent
and adds the correlation id and anomaly score computed by the enrichment
layer.  The derived context_data blob is not consumed by any later stage
modelled here and is elided. -/
structure EnrichedEvent where
  raw_event : RawEvent
  correlation_id : String
  anomaly_score : ℚ
  deriving DecidableEq, Repr

/-
Rational arithmetic.  The Batteries implementations of Rat.add, Rat.sub,
Rat.mul and Rat.inv are marked irreducible, which stops the kernel-level
evaluation used by the decide tactic on concrete inputs.  The embedded
definitions therefore use the equivalent executable operations below, built
from mkRat and Rat.divInt; the bridge lemmas restate them as the ordinary
field operations on ℚ for the symbolic proofs.
-/

/-- Executable addition on ℚ, equal to ordinary addition. -/
def qadd (a b : ℚ) : ℚ := mkRat (a.num * b.den + b.num * a.den) (a.den * b.den)

/-- Executable subtraction on ℚ, equal to ordinary subtraction. -/
def qsub (a b : ℚ) : ℚ := mkRat (a.num * b.den - b.num * a.den) (a.den * b.den)

/-- Executable multiplication on ℚ, equal to ordinary multiplication. -/
def qmul (a b : ℚ) : ℚ := mkRat (a.num * b.num) (a.den * b.den)

/-- Executable division on ℚ, equal to ordinary division (0 on division by 0). -/
def qdiv (a b : ℚ) : ℚ := Rat.divInt (a.num * b.den) (a.den * b.num)

/-- Executable maximum on rationals (Python max); equal to Mathlib max. -/
def qmax (a b : ℚ) : ℚ := if a ≤ b then b else a

/-- Executable minimum on rationals (Python min); equal to Mathlib min. -/
def qmin (a b : ℚ) : ℚ := if a ≤ b then a else b

theorem qadd_eq (a b : ℚ) : qadd a b = a + b := by
  have ha : ((a.den : ℚ)) ≠ 0 := Nat.cast_ne_zero.mpr a.den_ne_zero
  have hb : ((b.den : ℚ)) ≠ 0 := Nat.cast_ne_zero.mpr b.den_ne_zero
  unfold qadd
  rw [Rat.mkRat_eq_divInt, Rat.divInt_eq_div]
  push_cast
  conv_rhs => rw [← Rat.num_div_den a, ← Rat.num_div_den b]
  field_simp

theorem qsub_eq (a b : ℚ) : qsub a b = a - b := by
  have ha : ((a.den : ℚ)) ≠ 0 := Nat.cast_ne_zero.mpr a.den_ne_zero
  have hb : ((b.den : ℚ)) ≠ 0 := Nat.cast_ne_zero.mpr b.den_ne_zero
  unfold qsub
  rw [Rat.mkRat_eq_divInt, Rat.divInt_eq_div]
  push_cast
  conv_rhs => rw [← Rat.num_div_den a, ← Rat.num_div_den b]
  field_simp
  ring

theorem qmul_eq (a b : ℚ) : qmul a b = a * b := by
  have ha : ((a.den : ℚ)) ≠ 0 := Nat.cast_ne_zero.mpr a.den_ne_zero
  have hb : ((b.den : ℚ)) ≠ 0 := Nat.cast_ne_zero.mpr b.den_ne_zero
  unfold qmul
  rw [Rat.mkRat_eq_divInt, Rat.divInt_eq_div]
  push_cast
  conv_rhs => rw [← Rat.num_div_den a, ← Rat.num_div_den b]
  field_simp

theorem qdiv_eq (a b : ℚ) : qdiv a b = a / b := by
  rcases eq_or_ne b 0 with rfl | hb0
  · simp [qdiv]
  · have ha : ((a.den : ℚ)) ≠ 0 := Nat.cast_ne_zero.mpr a.den_ne_zero
    have hb : ((b.den : ℚ)) ≠ 0 := Nat.cast_ne_zero.mpr b.den_ne_zero
    have hbn : ((b.num : ℚ)) ≠ 0 := Int.cast_ne_zero.mpr (Rat.num_ne_zero.mpr hb0)
    unfold qdiv
    rw [Rat.divInt_eq_div]
    push_cast
    conv_rhs => rw [← Rat.num_div_den a, ← Rat.num_div_den b]
    field_simp

theorem mkRat_eq_div (n : ℤ) (d : ℕ) : mkRat n d = (n : ℚ) / (d : ℚ) := by
  rw [Rat.mkRat_eq_divInt, Rat.divInt_eq_div]
  push_cast
  rfl

theorem qmax_eq_max (a b : ℚ) : qmax a b = max a b := (max_def a b).symm

theorem qmin_eq_min (a b : ℚ) : qmin a b = min a b := (min_def a b).symm

/-
String primitives.  String.toLower and String.split in core recurse on
byte positions (well-founded recursion), which again blocks kernel
evaluation, so the Python string operations are embedded on the character
list underlying the string.
-/

/-- Helper for py_split: walks the characters, accumulating the current
word (reversed); whitespace closes the word, empty words are dropped. -/
def word_split_aux : List Char → List Char → List String
  | [], acc => if acc.isEmpty then [] else [String.mk acc.reverse]
  | c :: rest, acc =>
    if c.isWhitespace then
      (if acc.isEmpty then word_split_aux rest []
       else String.mk acc.reverse :: word_split_aux rest [])
    else word_split_aux rest (c :: acc)

/-- Python str.split() with no argument: split on runs of whitespace,
dropping empty tokens. -/
def py_split (s : String) : List String := word_split_aux s.toList []

/-- Python str.lower() (ASCII case folding, as Char.toLower). -/
def py_lower (s : String) : String := String.mk (s.toList.map Char.toLower)

/-- Whether the first character list occurs contiguously inside the second
(Python substring test). -/
def infix_of (needle : List Char) : List Char → Bool
  | [] => needle.isEmpty
  | c :: rest => needle.isPrefixOf (c :: rest) || infix_of needle rest

/-- Python sub in s: substring containment. -/
def contains_sub (hay sub : String) : Bool := infix_of sub.toList hay.toList

/-- Lower-cased whitespace-split tokens of a message:
msg.lower().split() in enrichment_layer._message_similarity. -/
def message_words (msg : String) : List String := py_split (py_lower msg)

/-- enrichment_layer._message_similarity: token Jaccard index of the two
messages (Python set intersection over union), 0 for an empty message or an
empty union. -/
def message_similarity (msg1 msg2 : String) : ℚ :=
  if msg1 = "" ∨ msg2 = "" then 0
  else
    let words1 := (message_words msg1).dedup
    let words2 := (message_words msg2).dedup
    let inter := words1.filter (fun w => decide (w ∈ words2))
    let union := (words1 ++ words2).dedup
    if union = [] then 0 else qdiv (inter.length : ℚ) (union.length : ℚ)

/-- The history queried by enrichment_layer._calculate_anomaly_score: raw
events with the same source and event type strictly before the given event,
ordered by timestamp descending, capped at 100. -/
def history_for (events : List RawEvent) (raw_event : RawEvent) : List RawEvent :=
  (List.insertionSort (fun a b => b.timestamp ≤ a.timestamp)
    (events.filter (fun h =>
      decide (h.source = raw_event.source) &&
      decide (h.event_type = raw_event.event_type) &&
      decide (h.timestamp < raw_event.timestamp)))).take 100

/-- enrichment_layer._calculate_anomaly_score over the full raw-event table. -/
def calculate_anomaly_score (events : List RawEvent) (raw_event : RawEvent) : ℚ :=
  let historical := history_for events raw_event
  if historical.length < 10 then mkRat 1 2
  else
    let similar := historical.filter
      (fun h => decide (message_similarity raw_event.message h.message > mkRat 7 10))
    let frequency : ℚ := qdiv (similar.length : ℚ) (historical.length : ℚ)
    qmax 0 (qmin 1 (qsub 1 (qmul frequency 2)))

/-- A token with every non-alphanumeric character removed (the per-word
punctuation stripping the fusion keyword extractor applies, and which the
spec also ascribes to the anomaly scorer). -/
def alnum_only (w : String) : String := String.mk (w.toList.filter Char.isAlphanum)

/-- The word set of the reference anomaly-score definition in the spec:
lower-cased, whitespace-split, punctuation-stripped tokens as a finite set. -/
def spec_word_set (msg : String) : Finset String :=
  ((py_split (py_lower msg)).map alnum_only).toFinset

/-- Token Jaccard index over punctuation-stripped word sets, as the claim
states it. -/
def spec_token_jaccard (msg1 msg2 : String) : ℚ :=
  let s1 := spec_word_set msg1
  let s2 := spec_word_set msg2
  if (s1 ∪ s2).card = 0 then 0 else qdiv ((s1 ∩ s2).card : ℚ) (((s1 ∪ s2).card : ℚ))

/-- The reference anomaly score of the claim: 0.5 on short history, otherwise
clamp(1 - 2 * similarCount / historyCount, 0, 1) with similarity measured by
the punctuation-stripped token Jaccard index. -/
def spec_anomaly_score (events : List RawEvent) (raw_event : RawEvent) : ℚ :=
  let historical := history_for events raw_event
  if historical.length < 10 then mkRat 1 2
  else
    let similarCount := historical.countP
      (fun h => decide (spec_token_jaccard raw_event.message h.message > mkRat 7 10))
    qmin 1 (qmax 0 (qsub 1 (qmul 2 (qdiv (similarCount : ℚ) (historical.length : ℚ)))))

/-- Token Jaccard index over word sets without punctuation stripping: the
amended reference definition, matching what the code computes. -/
def amended_token_jaccard (msg1 msg2 : String) : ℚ :=
  if msg1 = "" ∨ msg2 = "" then 0
  else
    let s1 := (message_words msg1).toFinset
    let s2 := (message_words msg2).toFinset
    if (s1 ∪ s2).card = 0 then 0 else qdiv ((s1 ∩ s2).card : ℚ) (((s1 ∪ s2).card : ℚ))

/-- The amended reference anomaly score: as the claim states it but with the
token sets not punctuation-stripped. -/
def amended_anomaly_score (events : List RawEvent) (raw_event : RawEvent) : ℚ :=
  let historical := history_for events raw_event
  if historical.length < 10 then mkRat 1 2
  else
    let similarCount := historical.countP
      (fun h => decide (amended_token_jaccard raw_event.message h.message > mkRat 7 10))
    qmin 1 (qmax 0 (qsub 1 (qmul 2 (qdiv (similarCount : ℚ) (historical.length : ℚ)))))

/-
Claim C2 support: the intersection and union sizes computed on deduplicated
lists agree with finite-set cardinalities.
-/

theorem dedup_filter_mem_length (l1 l2 : List String) :
    ((l1.dedup).filter (fun w => decide (w ∈ l2.dedup))).length =
      (l1.toFinset ∩ l2.toFinset).card := by
  have hnd : ((l1.dedup).filter (fun w => decide (w ∈ l2.dedup))).Nodup :=
    (List.nodup_dedup l1).filter _
  have hfin : ((l1.dedup).filter (fun w => decide (w ∈ l2.dedup))).toFinset =
      l1.toFinset ∩ l2.toFinset := by
    ext a
    simp [List.mem_filter, List.mem_dedup]
  calc ((l1.dedup).filter (fun w => decide (w ∈ l2.dedup))).length
      = ((l1.dedup).filter (fun w => decide (w ∈ l2.dedup))).dedup.length := by
        rw [hnd.dedup]
    _ = ((l1.dedup).filter (fun w => decide (w ∈ l2.dedup))).toFinset.card :=
        (List.card_toFinset _).symm
    _ = (l1.toFinset ∩ l2.toFinset).card := by rw [hfin]

theorem dedup_append_dedup_length (l1 l2 : List String) :
    ((l1.dedup ++ l2.dedup).dedup).length = (l1.toFinset ∪ l2.toFinset).card := by
  have hfin : (l1.dedup ++ l2.dedup).toFinset = l1.toFinset ∪ l2.toFinset := by
    ext a
    simp [List.mem_append, List.mem_dedup]
  rw [← List.card_toFinset, hfin]

theorem message_similarity_eq_amended (m1 m2 : String) :
    message_similarity m1 m2 = amended_token_jaccard m1 m2 := by
  unfold message_similarity amended_token_jaccard
  by_cases hg : m1 = "" ∨ m2 = ""
  · simp only [if_pos hg]
  · simp only [if_neg hg]
    have hU := dedup_append_dedup_length (message_words m1) (message_words m2)
    have hI := dedup_filter_mem_length (message_words m1) (message_words m2)
    have hcond : (((message_words m1).dedup ++ (message_words m2).dedup).dedup = []) ↔
        ((message_words m1).toFinset ∪ (message_words m2).toFinset).card = 0 := by
      rw [← hU, List.length_eq_zero]
    by_cases hc : ((message_words m1).dedup ++ (message_words m2).dedup).dedup = []
    · rw [if_pos hc, if_pos (hcond.mp hc)]
    · rw [if_neg hc, if_neg (fun h => hc (hcond.mpr h)), hI, hU]

/-- C2 (amended form): for every signal, the anomaly score of the code equals
the reference definition with lower-cased whitespace-split token sets that
are not punctuation-stripped. -/
theorem calculate_anomaly_score_eq_amended (events : List RawEvent) (raw_event : RawEvent) :
    calculate_anomaly_score events raw_event = amended_anomaly_score events raw_event := by
  unfold calculate_anomaly_score amended_anomaly_score
  by_cases h : (history_for events raw_event).length < 10
  · rw [if_pos h, if_pos h]
  · rw [if_neg h, if_neg h]
    rw [List.countP_eq_length_filter]
    have hp : (fun h1 : RawEvent =>
          decide (amended_token_jaccard raw_event.message h1.message > mkRat 7 10)) =
        (fun h1 : RawEvent =>
          decide (message_similarity raw_event.message h1.message > mkRat 7 10)) := by
      funext h1
      rw [message_similarity_eq_amended]
    rw [hp]
    simp only [qmax_eq_max, qmin_eq_min, qsub_eq, qmul_eq]
    rw [mul_comm, max_min_distrib_left]
    norm_num

/-- Ten historical raw events from one source and kind whose message carries
trailing punctuation. -/
def punct_history : List RawEvent :=
  (List.range 10).map (fun i =>
    { id := i, source := "web-1", event_type := "log", severity := "high",
      message := "error!", metadata_keys := [], timestamp := (i : ℚ) })

/-- A later signal from the same source and kind whose message is the same
word without the punctuation. -/
def punct_signal : RawEvent :=
  { id := 100, source := "web-1", event_type := "log", severity := "high",
    message := "error", metadata_keys := [], timestamp := 100 }

/-- C2 counterexample: on a concrete input the anomaly score computed by the
code is 1 while the reference definition of the claim, which strips
punctuation before comparing token sets, gives 0: the claimed equality fails. -/
theorem anomaly_score_strip_counterexample :
    calculate_anomaly_score punct_history punct_signal = 1 ∧
    spec_anomaly_score punct_history punct_signal = 0 ∧
    calculate_anomaly_score punct_history punct_signal ≠
      spec_anomaly_score punct_history punct_signal := by
  refine ⟨by decide, by decide, by decide⟩

/-- The severity bands of enrichment_layer._events_are_related. -/
def severity_groups : List (List String) := [["critical", "high"], ["medium", "low", "info"]]

/-- enrichment_layer._events_are_related: same source, or both severities in
one band, or (both metadata dicts non-empty and) at least 2 shared metadata
keys. -/
def events_are_related (event1 event2 : RawEvent) : Bool :=
  if event1.source = event2.source then true
  else if severity_groups.any (fun group =>
      decide (event1.severity ∈ group) && decide (event2.severity ∈ group)) then true
  else if !event1.metadata_keys.isEmpty && !event2.metadata_keys.isEmpty &&
      decide (2 ≤ ((event1.metadata_keys.dedup).filter
        (fun k => decide (k ∈ event2.metadata_keys.dedup))).length) then true
  else false

/-- enrichment_layer._generate_correlation_id, with the candidate window and
the freshly minted uuid passed in: the correlation id of the first related
event of the window, the fresh id when none is related. -/
def generate_correlation_id (window : List EnrichedEvent) (raw_event : RawEvent)
    (fresh_id : String) : String :=
  match window.find? (fun related => events_are_related raw_event related.raw_event) with
  | some related => related.correlation_id
  | none => fresh_id

/-- Relatedness as the claim words it: identical source, severities in the
same band (critical/high versus medium/low/info), or at least two shared
metadata keys. -/
def related_spec (e1 e2 : RawEvent) : Prop :=
  e1.source = e2.source ∨
  (e1.severity ∈ (["critical", "high"] : List String) ∧
    e2.severity ∈ (["critical", "high"] : List String)) ∨
  (e1.severity ∈ (["medium", "low", "info"] : List String) ∧
    e2.severity ∈ (["medium", "low", "info"] : List String)) ∨
  2 ≤ (e1.metadata_keys.toFinset ∩ e2.metadata_keys.toFinset).card


theorem find?_eq_head_filter {α : Type} (p : α → Bool) (l : List α) :
    l.find? p = (l.filter p).head? := by
  induction l with
  | nil => rfl
  | cons a t ih =>
    cases h : p a
    · rw [List.find?_cons, List.filter_cons, h, ih]
      simp
    · rw [List.find?_cons, List.filter_cons, h]
      simp

theorem events_are_related_iff (e1 e2 : RawEvent) :
    events_are_related e1 e2 = true ↔ related_spec e1 e2 := by
  have hcard := dedup_filter_mem_length e1.metadata_keys e2.metadata_keys
  have hne : 2 ≤ (e1.metadata_keys.toFinset ∩ e2.metadata_keys.toFinset).card →
      e1.metadata_keys.isEmpty = false ∧ e2.metadata_keys.isEmpty = false := by
    intro h2
    constructor <;> rw [List.isEmpty_eq_false_iff_exists_mem]
    · rcases Finset.card_pos.mp (by omega : 0 < (e1.metadata_keys.toFinset ∩ e2.metadata_keys.toFinset).card) with ⟨a, ha⟩
      exact ⟨a, List.mem_toFinset.mp (Finset.mem_inter.mp ha).1⟩
    · rcases Finset.card_pos.mp (by omega : 0 < (e1.metadata_keys.toFinset ∩ e2.metadata_keys.toFinset).card) with ⟨a, ha⟩
      exact ⟨a, List.mem_toFinset.mp (Finset.mem_inter.mp ha).2⟩
  unfold events_are_related
  split_ifs with h1 h2 h3
  · simp only [true_iff]
    exact Or.inl h1
  · simp only [severity_groups, List.any_cons, List.any_nil, Bool.or_false,
      Bool.and_eq_true, decide_eq_true_eq, Bool.or_eq_true] at h2
    simp only [true_iff]
    unfold related_spec
    tauto
  · simp only [Bool.and_eq_true, Bool.not_eq_true', decide_eq_true_eq] at h3
    rw [hcard] at h3
    simp only [true_iff]
    unfold related_spec
    tauto
  · simp only [severity_groups, List.any_cons, List.any_nil, Bool.or_false,
      Bool.and_eq_true, decide_eq_true_eq, Bool.or_eq_true, not_or] at h2
    simp only [Bool.and_eq_true, Bool.not_eq_true', decide_eq_true_eq, not_and] at h3
    rw [hcard] at h3
    simp only [Bool.false_eq_true, false_iff]
    unfold related_spec
    push_neg
    refine ⟨h1, fun hb => ?_, fun hc => ?_, ?_⟩
    · exact fun hb2 => h2.1 ⟨hb, hb2⟩
    · exact fun hc2 => h2.2 ⟨hc, hc2⟩
    · by_contra h4
      rw [not_lt] at h4
      exact h3 (hne h4) h4

/-- C4: two signals are related exactly when they share a source, their
severities fall in the same band, or they share at least two metadata keys;
and the correlator returns the correlation id of the first related enriched
signal of the candidate window, falling back to the freshly minted unique id
when none is related. -/
theorem correlation_first_match_spec :
    (∀ e1 e2 : RawEvent, events_are_related e1 e2 = true ↔ related_spec e1 e2) ∧
    (∀ (window : List EnrichedEvent) (raw_event : RawEvent) (fresh_id : String),
      generate_correlation_id window raw_event fresh_id =
        (((window.filter (fun r => events_are_related raw_event r.raw_event)).head?).map
          EnrichedEvent.correlation_id).getD fresh_id) := by
  refine ⟨events_are_related_iff, fun window raw_event fresh_id => ?_⟩
  unfold generate_correlation_id
  rw [find?_eq_head_filter]
  cases h : (window.filter (fun r => events_are_related raw_event r.raw_event)).head? <;>
    simp [h]

/-
Fusion layer (fusion/fusion_layer.py).  A FusedContext row groups the
EnrichedEvents of one correlation id and carries temporal, semantic and
causal summaries plus the fusion score.
-/

/-- Executable sum of a list of rationals, equal to List.sum. -/
def qsum (l : List ℚ) : ℚ := l.foldr qadd 0

theorem qsum_eq (l : List ℚ) : qsum l = l.sum := by
  induction l with
  | nil => rfl
  | cons a t ih => simp [qsum, List.sum_cons, qadd_eq] at ih ⊢; rw [ih]

/-- np.mean of a non-empty list (callers guard the empty case). -/
def list_mean (xs : List ℚ) : ℚ := qdiv (qsum xs) (xs.length : ℚ)

/-- The temporal context dict of fusion_layer._generate_temporal_context.
The hourly_distribution entry and the ISO-formatted start/end strings are
not consumed by any later stage modelled here; start and end are kept as
rational timestamps. -/
structure TemporalContext where
  event_count : Nat
  duration_seconds : ℚ
  start_time : ℚ
  end_time : ℚ
  average_interval_seconds : ℚ
  is_burst_pattern : Bool
  temporal_intensity : ℚ
  deriving DecidableEq, Repr

/-- fusion_layer._generate_temporal_context.  An empty group returns the
empty dict in the code; later reads use .get with the defaults 0/false,
which the zeroed structure reproduces. -/
def generate_temporal_context (events : List EnrichedEvent) : TemporalContext :=
  let timestamps :=
    List.insertionSort (fun a b : ℚ => a ≤ b) (events.map (fun e => e.raw_event.timestamp))
  match timestamps with
  | [] =>
    { event_count := 0, duration_seconds := 0, start_time := 0, end_time := 0,
      average_interval_seconds := 0, is_burst_pattern := false, temporal_intensity := 0 }
  | t0 :: rest =>
    let start_time := t0
    let end_time := (t0 :: rest).getLast (List.cons_ne_nil t0 rest)
    let duration := qsub end_time start_time
    let event_intervals := ((t0 :: rest).zip rest).map (fun p => qsub p.2 p.1)
    let avg_interval := if event_intervals.isEmpty then 0 else list_mean event_intervals
    { event_count := events.length
      duration_seconds := duration
      start_time := start_time
      end_time := end_time
      average_interval_seconds := avg_interval
      is_burst_pattern := decide (avg_interval < 60) && decide (events.length > 3)
      temporal_intensity := qdiv (events.length : ℚ) (qmax (qdiv duration 60) 1) }

/-- The semantic context dict of fusion_layer._generate_semantic_context.
The per-key counting dicts keep Python dict insertion order: first
occurrence order, each with its count. -/
structure SemanticContext where
  event_types : List (String × Nat)
  sources : List (String × Nat)
  severities : List (String × Nat)
  common_keywords : List String
  type_diversity : Nat
  source_diversity : Nat
  incident_category : String
  is_multi_service : Bool
  max_severity : String
  deriving DecidableEq, Repr

/-- A Python counting dict built over a list of keys: keys in first
occurrence order with their multiplicities. -/
def count_by (xs : List String) : List (String × Nat) :=
  xs.dedup.map (fun x => (x, xs.count x))

/-- The stop-word set of fusion_layer._extract_common_keywords. -/
def stop_words : List String :=
  ["the", "a", "an", "and", "or", "but", "in", "on", "at", "to", "for", "of", "with", "by"]

/-- The per-message tokens that _extract_common_keywords counts: lower-cased,
whitespace-split, stripped to alphanumeric characters, non-stop-words of
length over 2. -/
def keyword_tokens (message : String) : List String :=
  ((py_split (py_lower message)).map alnum_only).filter
    (fun w => !w.isEmpty && !(stop_words.contains w) && decide (w.length > 2))

/-- fusion_layer._extract_common_keywords with the default min_frequency 2:
tokens occurring at least twice across the messages, sorted by decreasing
count (stable), capped at 10. -/
def extract_common_keywords (messages : List String) : List String :=
  let all_words := messages.flatMap keyword_tokens
  let common := all_words.dedup.filter (fun w => decide (2 ≤ all_words.count w))
  (List.insertionSort (fun a b => all_words.count b ≤ all_words.count a) common).take 10

/-- The three category vocabularies of fusion_layer._categorize_incident. -/
def performance_keywords : List String :=
  ["timeout", "slow", "latency", "response", "cpu", "memory", "disk"]

def connectivity_keywords : List String :=
  ["connection", "network", "dns", "unreachable", "refused"]

def application_keywords : List String :=
  ["error", "exception", "failed", "crash", "restart"]

/-- How many keywords contain some vocabulary word as a substring. -/
def category_score (vocab : List String) (keywords : List String) : Nat :=
  (keywords.filter (fun k => vocab.any (fun pk => contains_sub k pk))).length

/-- fusion_layer._categorize_incident (the event_types and severities
arguments are unused by the code). -/
def categorize_incident (keywords : List String) : String :=
  let perf_score := category_score performance_keywords keywords
  let conn_score := category_score connectivity_keywords keywords
  let app_score := category_score application_keywords keywords
  if perf_score ≥ conn_score ∧ perf_score ≥ app_score then "performance"
  else if conn_score ≥ app_score then "connectivity"
  else "application"

/-- The severity ranking of fusion_layer._get_max_severity (unknown
severities rank 0). -/
def severity_order (s : String) : Nat :=
  if s = "critical" then 5
  else if s = "high" then 4
  else if s = "medium" then 3
  else if s = "low" then 2
  else if s = "info" then 1
  else 0

/-- fusion_layer._get_max_severity over the keys of the severity dict:
starts from ("info", 0) and keeps the strictly highest-ranked severity. -/
def get_max_severity (severities : List String) : String :=
  (severities.foldl
    (fun acc s => if severity_order s > acc.2 then (s, severity_order s) else acc)
    ("info", 0)).1

/-- fusion_layer._generate_semantic_context (empty severities are skipped;
empty messages are skipped). -/
def generate_semantic_context (events : List EnrichedEvent) : SemanticContext :=
  let raws := events.map (fun e => e.raw_event)
  let event_types := count_by (raws.map (fun r => r.event_type))
  let sources := count_by (raws.map (fun r => r.source))
  let severities := count_by ((raws.map (fun r => r.severity)).filter (fun s => !s.isEmpty))
  let messages := (raws.map (fun r => r.message)).filter (fun m => !m.isEmpty)
  let common_keywords := extract_common_keywords messages
  { event_types := event_types
    sources := sources
    severities := severities
    common_keywords := common_keywords
    type_diversity := event_types.length
    source_diversity := sources.length
    incident_category := categorize_incident common_keywords
    is_multi_service := decide (sources.length > 1)
    max_severity := get_max_severity (severities.map Prod.fst) }

/-- One causal-chain edge of fusion_layer._identify_causal_chains: an
adjacent (time-sorted) pair at most 300 seconds apart. -/
structure CausalChain where
  source_event : RawEvent
  target_event : RawEvent
  time_diff_seconds : ℚ
  causal_likelihood : ℚ
  deriving DecidableEq, Repr

/-- The anomaly-progression dict of fusion_layer._analyze_anomaly_progression
(every modelled event carries a non-null anomaly score, so the None filter of
the code is the identity). -/
structure AnomalyProgression where
  average_anomaly_score : ℚ
  max_anomaly_score : ℚ
  min_anomaly_score : ℚ
  anomaly_trend : String
  high_anomaly_count : Nat
  deriving DecidableEq, Repr

/-- One potential root cause of fusion_layer._identify_potential_root_causes. -/
structure RootCauseCandidate where
  event_source : String
  event_message : String
  timestamp : ℚ
  confidence : ℚ
  reason : String
  deriving DecidableEq, Repr

/-- The causal context dict of fusion_layer._generate_causal_context. -/
structure CausalContext where
  causal_chains : List CausalChain
  anomaly_progression : AnomalyProgression
  potential_root_causes : List RootCauseCandidate
  causal_strength : ℚ
  has_clear_progression : Bool
  root_cause_confidence : ℚ
  deriving DecidableEq, Repr

/-- fusion_layer._identify_causal_chains over the time-sorted group: each
adjacent pair within 300 seconds becomes an edge with likelihood
max(0, 1 - timeDiff/300). -/
def identify_causal_chains (sorted_events : List EnrichedEvent) : List CausalChain :=
  ((sorted_events.zip sorted_events.tail).filterMap (fun p =>
    let time_diff := qsub p.2.raw_event.timestamp p.1.raw_event.timestamp
    if time_diff ≤ 300 then
      some { source_event := p.1.raw_event
             target_event := p.2.raw_event
             time_diff_seconds := time_diff
             causal_likelihood := qmax 0 (qsub 1 (qdiv time_diff 300)) }
    else none))

/-- fusion_layer._analyze_anomaly_progression, over the group in its given
(unsorted) order, as the code passes it. -/
def analyze_anomaly_progression (events : List EnrichedEvent) : AnomalyProgression :=
  match events.map (fun e => e.anomaly_score) with
  | [] =>
    { average_anomaly_score := 0, max_anomaly_score := 0, min_anomaly_score := 0,
      anomaly_trend := "stable", high_anomaly_count := 0 }
  | s :: rest =>
    { average_anomaly_score := list_mean (s :: rest)
      max_anomaly_score := rest.foldl qmax s
      min_anomaly_score := rest.foldl qmin s
      anomaly_trend :=
        if rest ≠ [] ∧ (s :: rest).getLast (List.cons_ne_nil s rest) > s then "increasing"
        else "stable"
      high_anomaly_count := ((s :: rest).filter (fun x => decide (x > mkRat 7 10))).length }

/-- The root-cause record built from one enriched event. -/
def mk_root_cause (e : EnrichedEvent) (reason : String) : RootCauseCandidate :=
  { event_source := e.raw_event.source
    event_message := e.raw_event.message
    timestamp := e.raw_event.timestamp
    confidence := e.anomaly_score
    reason := reason }

/-- De-duplication by (source, message) keeping first occurrences, as the
seen-set loop of _identify_potential_root_causes. -/
def dedup_causes : List RootCauseCandidate → List (String × String) → List RootCauseCandidate
  | [], _ => []
  | c :: rest, seen =>
    if (c.event_source, c.event_message) ∈ seen then dedup_causes rest seen
    else c :: dedup_causes rest ((c.event_source, c.event_message) :: seen)

/-- fusion_layer._identify_potential_root_causes over the time-sorted group:
the earliest event when its anomaly score exceeds 0.5, plus every event with
score above 0.8, de-duplicated by (source, message), sorted by decreasing
confidence, capped at 3.  (The Python truthiness test on the score only
excludes scores that fail the threshold anyway.) -/
def identify_potential_root_causes (sorted_events : List EnrichedEvent) :
    List RootCauseCandidate :=
  match sorted_events with
  | [] => []
  | first :: _ =>
    let first_causes :=
      if first.anomaly_score > mkRat 1 2 then [mk_root_cause first "first_anomalous_event"]
      else []
    let high_causes := sorted_events.filterMap (fun e =>
      if e.anomaly_score > mkRat 4 5 then some (mk_root_cause e "high_anomaly_score")
      else none)
    let unique_causes := dedup_causes (first_causes ++ high_causes) []
    (List.insertionSort (fun a b => b.confidence ≤ a.confidence) unique_causes).take 3

/-- fusion_layer._calculate_causal_strength: mean edge likelihood with a +0.2
boost on an increasing anomaly trend, capped at 1; 0 without edges. -/
def calculate_causal_strength (causal_chains : List CausalChain)
    (anomaly_progression : AnomalyProgression) : ℚ :=
  if causal_chains.isEmpty then 0
  else
    let avg_likelihood := list_mean (causal_chains.map (fun c => c.causal_likelihood))
    let trend_boost : ℚ :=
      if anomaly_progression.anomaly_trend = "increasing" then mkRat 1 5 else 0
    qmin 1 (qadd avg_likelihood trend_boost)

/-- fusion_layer._calculate_root_cause_confidence: the highest candidate
confidence, 0 without candidates. -/
def calculate_root_cause_confidence (potential_root_causes : List RootCauseCandidate) : ℚ :=
  match potential_root_causes with
  | [] => 0
  | c :: rest => (rest.map (fun x => x.confidence)).foldl qmax c.confidence

/-- fusion_layer._generate_causal_context. -/
def generate_causal_context (events : List EnrichedEvent) : CausalContext :=
  let sorted_events :=
    List.insertionSort (fun a b => a.raw_event.timestamp ≤ b.raw_event.timestamp) events
  let causal_chains := identify_causal_chains sorted_events
  let anomaly_progression := analyze_anomaly_progression events
  let potential_root_causes := identify_potential_root_causes sorted_events
  { causal_chains := causal_chains
    anomaly_progression := anomaly_progression
    potential_root_causes := potential_root_causes
    causal_strength := calculate_causal_strength causal_chains anomaly_progression
    has_clear_progression := decide (causal_chains.length > 0)
    root_cause_confidence := calculate_root_cause_confidence potential_root_causes }

/-- fusion_layer._calculate_fusion_score: the weighted sum of the temporal,
semantic and causal sub-scores, clamped above at 1 (there is no lower
clamp and no weight normalization in the code). -/
def calculate_fusion_score (temporal_context : TemporalContext)
    (semantic_context : SemanticContext) (causal_context : CausalContext)
    (temporal_weight semantic_weight causal_weight : ℚ) : ℚ :=
  let temporal_score :=
    qadd (qmin 1 (qdiv temporal_context.temporal_intensity 10))
      (if temporal_context.is_burst_pattern then mkRat 1 5 else 0)
  let severity_bonus : ℚ :=
    if semantic_context.max_severity = "critical" then mkRat 2 5
    else if semantic_context.max_severity = "high" then mkRat 3 10
    else 0
  let semantic_score :=
    qadd (qadd severity_bonus (if semantic_context.is_multi_service then mkRat 3 10 else 0))
      (qmin (mkRat 3 10) (qdiv (semantic_context.type_diversity : ℚ) 10))
  let causal_score :=
    qadd (qmul causal_context.causal_strength (mkRat 3 5))
      (qmul causal_context.root_cause_confidence (mkRat 2 5))
  qmin 1 (qadd (qadd (qmul temporal_score temporal_weight)
    (qmul semantic_score semantic_weight)) (qmul causal_score causal_weight))

/-- The FusedContext row (database/models.py FusedContext): one incident per
correlation group. -/
structure FusedContext where
  incident_id : String
  temporal_context : TemporalContext
  semantic_context : SemanticContext
  causal_context : CausalContext
  fusion_score : ℚ
  deriving DecidableEq, Repr

/-- fusion_layer._create_fused_context for one correlation group. -/
def create_fused_context (temporal_weight semantic_weight causal_weight : ℚ)
    (correlation_id : String) (events : List EnrichedEvent) : FusedContext :=
  let temporal_context := generate_temporal_context events
  let semantic_context := generate_semantic_context events
  let causal_context := generate_causal_context events
  { incident_id := correlation_id
    temporal_context := temporal_context
    semantic_context := semantic_context
    causal_context := causal_context
    fusion_score := calculate_fusion_score temporal_context semantic_context causal_context
      temporal_weight semantic_weight causal_weight }

/-
RCA engine (rca/rca_engine.py).  The LLM and the JSON decoder are external:
the LLM call is an Except value (error = raised exception), the decoder a
function parameter standing for json.loads, so theorems quantify over both.
-/

/-- A decoded JSON value as far as the response parser inspects one: a
number (Python int/float/bool, all accepted by the isinstance check), a
string, or anything else (array/object/null), which the confidence check
treats as non-numeric. -/
inductive PyVal where
  | num (q : ℚ)
  | str (s : String)
  | composite
  deriving DecidableEq, Repr

/-- The parsed LLM analysis as _parse_llm_response returns it.  The three
text fields hold whatever JSON value the response carried; the confidence is
numeric after coercion. -/
structure LlmRca where
  root_cause : PyVal
  confidence_score : ℚ
  suggested_fix : PyVal
  llm_reasoning : PyVal
  deriving DecidableEq, Repr

/-- Dictionary lookup in a decoded JSON object. -/
def lookup_field (parsed : List (String × PyVal)) (field : String) : Option PyVal :=
  (parsed.find? (fun kv => decide (kv.1 = field))).map Prod.snd

/-- A required text field, replaced by the Missing marker string when
absent, as the required-fields loop does. -/
def field_or_missing (parsed : List (String × PyVal)) (field : String) : PyVal :=
  match lookup_field parsed field with
  | some v => v
  | none => .str ("Missing " ++ field)

/-- The confidence coercion of _parse_llm_response: a missing field (which
the required-fields loop replaces by a string), a non-numeric value, or a
numeric value outside 0..1 all become 0.5. -/
def coerce_confidence (v : Option PyVal) : ℚ :=
  match v with
  | some (.num q) => if 0 ≤ q ∧ q ≤ 1 then q else mkRat 1 2
  | some (.str _) => mkRat 1 2
  | some .composite => mkRat 1 2
  | none => mkRat 1 2

/-- rca_engine._fallback_parse: the fixed low-confidence (0.3) record, with
the raw response kept as reasoning, truncated to 500 characters. -/
def fallback_parse (response_text : String) : LlmRca :=
  { root_cause := .str "Analysis completed but response format unclear"
    confidence_score := mkRat 3 10
    suggested_fix := .str "Manual review of incident required"
    llm_reasoning := .str
      (if response_text.toList.length > 500 then
        String.mk (response_text.toList.take 500) ++ "..."
      else response_text) }

/-- The substring between the first opening and the last closing brace, as
response_text[start:end] in _parse_llm_response. -/
def extract_json_region (response_text : String) : String :=
  let cs := response_text.toList
  match cs.findIdx? (fun c => c = '\x7b'), (cs.reverse.findIdx? (fun c => c = '\x7d')) with
  | some i, some jr =>
    let j := cs.length - 1 - jr
    String.mk ((cs.drop i).take (j + 1 - i))
  | _, _ => ""

/-- rca_engine._parse_llm_response: when the text contains braces and the
decoder accepts the brace-delimited region as a JSON object, the fields are
read with the Missing markers and the confidence coercion; any decoder
failure (no JSON object, malformed JSON, or a non-object value, which makes
the field access raise) falls back to _fallback_parse. -/
def parse_llm_response (decode : String → Option (List (String × PyVal)))
    (response_text : String) : LlmRca :=
  if response_text.toList.contains '\x7b' && response_text.toList.contains '\x7d' then
    match decode (extract_json_region response_text) with
    | some parsed =>
      { root_cause := field_or_missing parsed "root_cause"
        confidence_score := coerce_confidence (lookup_field parsed "confidence_score")
        suggested_fix := field_or_missing parsed "suggested_fix"
        llm_reasoning := field_or_missing parsed "llm_reasoning" }
    | none => fallback_parse response_text
  else fallback_parse response_text

/-- rca_engine._generate_llm_rca: parse the LLM response, or produce the
fixed 0.1-confidence placeholder when the LLM call raised. -/
def generate_llm_rca (decode : String → Option (List (String × PyVal)))
    (llm_response : Except String String) : LlmRca :=
  match llm_response with
  | .ok response_text => parse_llm_response decode response_text
  | .error e =>
    { root_cause := .str "Unable to determine root cause due to LLM error"
      confidence_score := mkRat 1 10
      suggested_fix := .str "Manual investigation required"
      llm_reasoning := .str ("LLM error: " ++ e) }

/-- The analysis_method value for a confident LLM answer (spec state
ANALYZED). -/
def ANALYZED : String := "llm"

/-- The analysis_method value marking an incident for deep agentic analysis
(spec state PENDING_DEEP). -/
def PENDING_DEEP : String := "pending_agentic"

/-- The analysis_method value for a low-confidence answer without fallback
(spec state ANALYZED_LOW_CONFIDENCE). -/
def ANALYZED_LOW_CONFIDENCE : String := "llm_low_confidence"

/-- The analysis_method value after agentic deep analysis (spec state
DEEP_ANALYZED). -/
def DEEP_ANALYZED : String := "agentic"

/-- The placeholder fix text written when an incident is routed to deep
analysis. -/
def deeper_analysis_fix : PyVal := .str "Requires deeper analysis with external tools"

/-- The confidence gate of RCAEngine._analyze_single_incident: below
threshold/100 the incident goes to the agentic queue (with the fix text
replaced) when the fallback is enabled, otherwise it is recorded as
llm_low_confidence; at or above the threshold it is recorded as llm.
Returns the routed record and the analysis_method. -/
def route_analysis (rca : LlmRca) (confidence_threshold : ℚ)
    (enable_agentic_fallback : Bool) : LlmRca × String :=
  if rca.confidence_score < qdiv confidence_threshold 100 then
    if enable_agentic_fallback then
      ({ rca with suggested_fix := deeper_analysis_fix }, PENDING_DEEP)
    else (rca, ANALYZED_LOW_CONFIDENCE)
  else (rca, ANALYZED)

/-- An RCAResult row (database/models.py RCAResult). -/
structure RCAResultRow where
  incident_id : String
  root_cause : PyVal
  confidence_score : ℚ
  suggested_fix : PyVal
  analysis_method : String
  llm_reasoning : PyVal
  deriving DecidableEq, Repr

/-- RCAEngine._analyze_single_incident: generate the LLM analysis for the
incident (the vector-store patterns only feed the prompt), route it through
the confidence gate and store the row. -/
def analyze_single_incident (decode : String → Option (List (String × PyVal)))
    (explainer : FusedContext → Except String String) (confidence_threshold : ℚ)
    (enable_agentic_fallback : Bool) (incident : FusedContext) : RCAResultRow :=
  let rca := generate_llm_rca decode (explainer incident)
  let routed := route_analysis rca confidence_threshold enable_agentic_fallback
  { incident_id := incident.incident_id
    root_cause := routed.1.root_cause
    confidence_score := routed.1.confidence_score
    suggested_fix := routed.1.suggested_fix
    analysis_method := routed.2
    llm_reasoning := routed.1.llm_reasoning }

/-
Agentic deep analysis (agentic/agentic_ai.py).  The four investigation tools
are external; their gathered context is the input.  A tool that returned
nothing is None (the same as a tool whose dict is empty, since Python
truthiness gates each block).
-/

/-- The monitoring data _synthesize_agentic_findings inspects: the maximum
CPU utilization and the list of services down. -/
structure MonitoringData where
  cpu_max : ℚ
  services_down : List String
  deriving DecidableEq, Repr

/-- A GitHub issue as inspected: its title and labels. -/
structure GithubIssue where
  title : String
  labels : List String
  deriving DecidableEq, Repr

/-- The GitHub data as inspected: recent deployments (service, version) and
recent issues. -/
structure GithubData where
  recent_deployments : List (String × String)
  recent_issues : List GithubIssue
  deriving DecidableEq, Repr

/-- A code hotspot as inspected: file name and risk score. -/
structure CodeHotspot where
  file : String
  risk_score : ℚ
  deriving DecidableEq, Repr

/-- The source analysis as inspected: the code hotspots. -/
structure SourceAnalysisData where
  code_hotspots : List CodeHotspot
  deriving DecidableEq, Repr

/-- A cloud provider incident as inspected: service and impact. -/
structure CloudIncident where
  service : String
  impact : String
  deriving DecidableEq, Repr

/-- One external dependency with its status string. -/
structure DependencyStatus where
  name : String
  status : String
  deriving DecidableEq, Repr

/-- The external status as inspected: cloud incidents and dependency
statuses. -/
structure ExternalStatusData where
  cloud_incidents : List CloudIncident
  dependency_status : List DependencyStatus
  deriving DecidableEq, Repr

/-- The merged external context of _perform_agentic_analysis; each tool is
independently optional. -/
structure ExternalContext where
  monitoring : Option MonitoringData
  github : Option GithubData
  source_analysis : Option SourceAnalysisData
  external_status : Option ExternalStatusData
  deriving DecidableEq, Repr

/-- The evidence weights collected by _synthesize_agentic_findings, in the
order the code appends them: +0.2 for a CPU maximum above 80, +0.3 for
services down, +0.25 per recent deployment, +0.2 per performance-labelled
issue, +0.15 per hotspot with risk above 0.7, +0.1 per cloud incident,
+0.15 per degraded dependency. -/
def confidence_factors (ctx : ExternalContext) : List ℚ :=
  (match ctx.monitoring with
   | none => []
   | some m =>
     (if m.cpu_max > 80 then [mkRat 1 5] else []) ++
     (if !m.services_down.isEmpty then [mkRat 3 10] else [])) ++
  (match ctx.github with
   | none => []
   | some g =>
     g.recent_deployments.map (fun _ => mkRat 1 4) ++
     g.recent_issues.filterMap (fun issue =>
       if "performance" ∈ issue.labels then some (mkRat 1 5) else none)) ++
  (match ctx.source_analysis with
   | none => []
   | some s =>
     s.code_hotspots.filterMap (fun hotspot =>
       if hotspot.risk_score > mkRat 7 10 then some (mkRat 3 20) else none)) ++
  (match ctx.external_status with
   | none => []
   | some e =>
     e.cloud_incidents.map (fun _ => mkRat 1 10) ++
     e.dependency_status.filterMap (fun dep =>
       if dep.status = "degraded" then some (mkRat 3 20) else none))

/-- The confidence computed by _synthesize_agentic_findings on its success
path: the original confidence plus the factor sum capped at 0.3, the result
capped at 0.95. -/
def synthesize_confidence (original_confidence : ℚ) (ctx : ExternalContext) : ℚ :=
  let confidence_boost := qmin (mkRat 3 10) (qsum (confidence_factors ctx))
  qmin (mkRat 19 20) (qadd original_confidence confidence_boost)

/-- The confidence of the error fallback of _synthesize_agentic_findings:
the original confidence plus 0.1, capped at 0.85. -/
def synthesize_fallback_confidence (original_confidence : ℚ) : ℚ :=
  qmin (mkRat 17 20) (qadd original_confidence (mkRat 1 10))

/-- _perform_agentic_analysis updating the stored RCA row after synthesis:
the confidence is replaced by the synthesized one and the analysis method
becomes agentic (the enriched text fields are elided).  The error-path
variant uses the fallback confidence. -/
def perform_agentic_analysis (ctx : ExternalContext) (synthesis_fails : Bool)
    (row : RCAResultRow) : RCAResultRow :=
  { row with
    confidence_score :=
      if synthesis_fails then synthesize_fallback_confidence row.confidence_score
      else synthesize_confidence row.confidence_score ctx
    analysis_method := DEEP_ANALYZED }

/-
Batch drivers.  Each stage selects the inputs whose key is absent from its
output table (the NOT IN anti-join of process_raw_events,
create_incident_contexts and analyze_incidents), truncates to the batch
limit, and processes them in order, appending one output row per input.
The session is visible to the per-row processing, so the accumulator is
passed to the row constructor.
-/

/-- The shared anti-join batch step: process the first limit inputs whose
key has no output row yet, appending one row each. -/
def anti_join_run {α β κ : Type} [DecidableEq κ] (inKey : α → κ) (outKey : β → κ)
    (mk : List β → α → β) (limit : Nat) (inputs : List α) (out0 : List β) : List β :=
  ((inputs.filter (fun a => !(out0.any (fun b => decide (outKey b = inKey a))))).take
    limit).foldl (fun acc a => acc ++ [mk acc a]) out0

/-- enrichment_layer._enrich_single_event: the candidate window is every
already-enriched event whose raw timestamp is within the correlation window
(minutes) of the new event, excluding the event itself; the uuid minted for
an unmatched event is supplied by fresh_id. -/
def enrich_single_event (correlation_window : ℚ) (fresh_id : Nat → String)
    (all_raw : List RawEvent) (enriched : List EnrichedEvent)
    (raw_event : RawEvent) : EnrichedEvent :=
  let window := enriched.filter (fun related =>
    decide (qsub raw_event.timestamp (qmul correlation_window 60) ≤
      related.raw_event.timestamp) &&
    decide (related.raw_event.timestamp ≤
      qadd raw_event.timestamp (qmul correlation_window 60)) &&
    !decide (related.raw_event.id = raw_event.id))
  { raw_event := raw_event
    correlation_id := generate_correlation_id window raw_event (fresh_id raw_event.id)
    anomaly_score := calculate_anomaly_score all_raw raw_event }

/-- enrichment_layer.process_raw_events: enrich the raw events that have no
EnrichedEvent yet, newest first, at most limit of them. -/
def process_raw_events (correlation_window : ℚ) (fresh_id : Nat → String) (limit : Nat)
    (raws : List RawEvent) (enriched : List EnrichedEvent) : List EnrichedEvent :=
  anti_join_run RawEvent.id (fun ee => ee.raw_event.id)
    (enrich_single_event correlation_window fresh_id raws) limit
    (List.insertionSort (fun a b => b.timestamp ≤ a.timestamp) raws) enriched

/-- fusion_layer.create_incident_contexts: group the enriched events with a
recent-enough timestamp and no FusedContext for their correlation id, and
create one FusedContext per group. -/
def create_incident_contexts (temporal_weight semantic_weight causal_weight : ℚ)
    (cutoff_time : ℚ) (enriched : List EnrichedEvent)
    (fused : List FusedContext) : List FusedContext :=
  let unfused := enriched.filter (fun e =>
    decide (cutoff_time ≤ e.raw_event.timestamp) &&
    !(fused.any (fun f => decide (f.incident_id = e.correlation_id))))
  let correlation_ids := (unfused.map (fun e => e.correlation_id)).dedup
  anti_join_run (fun cid => cid) FusedContext.incident_id
    (fun _acc cid =>
      create_fused_context temporal_weight semantic_weight causal_weight cid
        (unfused.filter (fun e => decide (e.correlation_id = cid))))
    correlation_ids.length correlation_ids fused

/-- rca_engine.analyze_incidents: analyze every FusedContext that has no
RCAResult row yet. -/
def analyze_incidents (decode : String → Option (List (String × PyVal)))
    (explainer : FusedContext → Except String String) (confidence_threshold : ℚ)
    (enable_agentic_fallback : Bool) (incidents : List FusedContext)
    (results : List RCAResultRow) : List RCAResultRow :=
  anti_join_run FusedContext.incident_id RCAResultRow.incident_id
    (fun _acc incident =>
      analyze_single_incident decode explainer confidence_threshold
        enable_agentic_fallback incident)
    incidents.length incidents results

theorem foldl_append_extends {α β : Type} (mk : List β → α → β) (l : List α) :
    ∀ acc : List β, acc <+: l.foldl (fun acc a => acc ++ [mk acc a]) acc := by
  induction l with
  | nil => intro acc; exact List.prefix_rfl
  | cons a t ih =>
    intro acc
    rw [List.foldl_cons]
    exact List.IsPrefix.trans (List.prefix_append acc [mk acc a]) (ih (acc ++ [mk acc a]))

theorem foldl_append_keys {α β κ : Type} (inKey : α → κ) (outKey : β → κ)
    (mk : List β → α → β) (hk : ∀ acc a, outKey (mk acc a) = inKey a) (l : List α) :
    ∀ acc : List β,
      (l.foldl (fun acc a => acc ++ [mk acc a]) acc).map outKey =
        acc.map outKey ++ l.map inKey := by
  induction l with
  | nil => intro acc; simp
  | cons a t ih =>
    intro acc
    rw [List.foldl_cons, ih (acc ++ [mk acc a])]
    simp [hk]

theorem anti_join_run_extends {α β κ : Type} [DecidableEq κ] (inKey : α → κ)
    (outKey : β → κ) (mk : List β → α → β) (limit : Nat) (inputs : List α)
    (out0 : List β) :
    out0 <+: anti_join_run inKey outKey mk limit inputs out0 :=
  foldl_append_extends mk _ out0

theorem anti_join_run_keys {α β κ : Type} [DecidableEq κ] (inKey : α → κ)
    (outKey : β → κ) (mk : List β → α → β)
    (hk : ∀ acc a, outKey (mk acc a) = inKey a) (limit : Nat) (inputs : List α)
    (out0 : List β) :
    (anti_join_run inKey outKey mk limit inputs out0).map outKey =
      out0.map outKey ++
        (((inputs.filter (fun a => !(out0.any (fun b => decide (outKey b = inKey a))))).take
          limit).map inKey) :=
  foldl_append_keys inKey outKey mk hk _ out0

theorem anti_join_run_nodup {α β κ : Type} [DecidableEq κ] (inKey : α → κ)
    (outKey : β → κ) (mk : List β → α → β)
    (hk : ∀ acc a, outKey (mk acc a) = inKey a) (limit : Nat) (inputs : List α)
    (out0 : List β) (hin : (inputs.map inKey).Nodup) (hout : (out0.map outKey).Nodup) :
    ((anti_join_run inKey outKey mk limit inputs out0).map outKey).Nodup := by
  rw [anti_join_run_keys inKey outKey mk hk limit inputs out0]
  have hsub : List.Sublist
      ((inputs.filter (fun a => !(out0.any (fun b => decide (outKey b = inKey a))))).take
        limit) inputs :=
    (List.take_sublist _ _).trans (List.filter_sublist _)
  refine List.Nodup.append hout (hin.sublist (hsub.map inKey)) ?_
  intro k hk0 hknew
  rcases List.mem_map.mp hknew with ⟨a, ha, rfl⟩
  have hpa := List.of_mem_filter ((List.take_sublist _ _).subset ha)
  rw [Bool.not_eq_true', ← Bool.not_eq_true, List.any_eq_true] at hpa
  rcases List.mem_map.mp hk0 with ⟨b, hb, hbk⟩
  exact hpa ⟨b, hb, by simp [hbk]⟩

theorem anti_join_run_twice {α β κ : Type} [DecidableEq κ] (inKey : α → κ)
    (outKey : β → κ) (mk : List β → α → β)
    (hk : ∀ acc a, outKey (mk acc a) = inKey a) (limit : Nat) (inputs : List α)
    (out0 : List β)
    (hlim : (inputs.filter
      (fun a => !(out0.any (fun b => decide (outKey b = inKey a))))).length ≤ limit) :
    anti_join_run inKey outKey mk limit inputs
        (anti_join_run inKey outKey mk limit inputs out0) =
      anti_join_run inKey outKey mk limit inputs out0 := by
  set out1 := anti_join_run inKey outKey mk limit inputs out0 with hout1
  have hkeys : out1.map outKey = out0.map outKey ++
      (((inputs.filter (fun a => !(out0.any (fun b => decide (outKey b = inKey a))))).take
        limit).map inKey) :=
    anti_join_run_keys inKey outKey mk hk limit inputs out0
  have hmem : ∀ a ∈ inputs, inKey a ∈ out1.map outKey := by
    intro a ha
    rw [hkeys]
    by_cases h0 : out0.any (fun b => decide (outKey b = inKey a))
    · rcases List.any_eq_true.mp h0 with ⟨b, hb, hbk⟩
      exact List.mem_append_left _ (List.mem_map.mpr ⟨b, hb, by simpa using hbk⟩)
    · have hfa : a ∈ inputs.filter
          (fun a => !(out0.any (fun b => decide (outKey b = inKey a)))) :=
        List.mem_filter.mpr ⟨ha, by simp [h0]⟩
      rw [List.take_of_length_le hlim]
      exact List.mem_append_right _ (List.mem_map.mpr ⟨a, hfa, rfl⟩)
  have hfilter2 : inputs.filter
      (fun a => !(out1.any (fun b => decide (outKey b = inKey a)))) = [] := by
    rw [List.filter_eq_nil_iff]
    intro a ha
    rcases List.mem_map.mp (hmem a ha) with ⟨b, hb, hbk⟩
    simp only [Bool.not_eq_true', Bool.not_eq_false]
    exact List.any_eq_true.mpr ⟨b, hb, by simp [hbk]⟩
  conv_lhs => unfold anti_join_run
  rw [hfilter2]
  simp

theorem create_incident_contexts_twice (wt ws wc cutoff : ℚ)
    (enriched : List EnrichedEvent) (fused : List FusedContext) :
    create_incident_contexts wt ws wc cutoff enriched
        (create_incident_contexts wt ws wc cutoff enriched fused) =
      create_incident_contexts wt ws wc cutoff enriched fused := by
  set F1 := create_incident_contexts wt ws wc cutoff enriched fused with hF1
  set unfused1 := enriched.filter (fun e =>
    decide (cutoff ≤ e.raw_event.timestamp) &&
    !(fused.any (fun f => decide (f.incident_id = e.correlation_id)))) with hu1
  set cids1 := (unfused1.map (fun e => e.correlation_id)).dedup with hc1
  have hrun1 : F1 = anti_join_run (fun cid => cid) FusedContext.incident_id
      (fun _acc cid => create_fused_context wt ws wc cid
        (unfused1.filter (fun e => decide (e.correlation_id = cid))))
      cids1.length cids1 fused := rfl
  have hkf : ∀ (acc : List FusedContext) (cid : String),
      FusedContext.incident_id (create_fused_context wt ws wc cid
        (unfused1.filter (fun e => decide (e.correlation_id = cid)))) = cid :=
    fun _ _ => rfl
  have hkeys := anti_join_run_keys (fun cid : String => cid) FusedContext.incident_id
    (fun _acc cid => create_fused_context wt ws wc cid
      (unfused1.filter (fun e => decide (e.correlation_id = cid))))
    hkf cids1.length cids1 fused
  simp only [] at hkeys
  have hlim : (cids1.filter
      (fun cid => !(fused.any (fun b => decide (b.incident_id = cid))))).length ≤
      cids1.length := List.length_filter_le _ _
  have hunf2 : enriched.filter (fun e =>
      decide (cutoff ≤ e.raw_event.timestamp) &&
      !(F1.any (fun f => decide (f.incident_id = e.correlation_id)))) = [] := by
    rw [List.filter_eq_nil_iff]
    intro e he hcontra
    rw [Bool.and_eq_true] at hcontra
    obtain ⟨hts, hnoany⟩ := hcontra
    rw [Bool.not_eq_true'] at hnoany
    have hany : F1.any (fun f => decide (f.incident_id = e.correlation_id)) = true := by
      by_cases h0 : fused.any (fun f => decide (f.incident_id = e.correlation_id))
      · rcases List.any_eq_true.mp h0 with ⟨f, hf, hfe⟩
        refine List.any_eq_true.mpr ⟨f, ?_, hfe⟩
        rw [hrun1]
        exact (anti_join_run_extends _ _ _ _ _ _).sublist.subset hf
      · have hmem1 : e ∈ unfused1 := by
          rw [hu1]
          exact List.mem_filter.mpr ⟨he, by simp [hts, h0]⟩
        have hcid : e.correlation_id ∈ cids1 := by
          rw [hc1]
          exact List.mem_dedup.mpr (List.mem_map.mpr ⟨e, hmem1, rfl⟩)
        have hcidf : e.correlation_id ∈ cids1.filter
            (fun cid => !(fused.any (fun b => decide (b.incident_id = cid)))) := by
          refine List.mem_filter.mpr ⟨hcid, ?_⟩
          simpa using h0
        have hkmem : e.correlation_id ∈ F1.map FusedContext.incident_id := by
          rw [hrun1, hkeys, List.take_of_length_le hlim]
          exact List.mem_append_right _ (by simpa using hcidf)
        rcases List.mem_map.mp hkmem with ⟨f, hf, hfe⟩
        exact List.any_eq_true.mpr ⟨f, hf, by simp [hfe]⟩
    rw [hnoany] at hany
    exact Bool.false_ne_true hany
  unfold create_incident_contexts
  rw [hunf2]
  simp [anti_join_run]

/-- C5: running each stage twice over the same stored state is idempotent.
For each of Enrichment, Fusion and the Analysis Router: the existing rows
are preserved unchanged (as a prefix), the key of each row stays unique (no
duplicate EnrichedEvent per raw event, FusedContext per incident id, or
RCAResult per incident id), and a second run over the resulting state
changes nothing, because each stage selects only inputs absent from its own
output.  For Enrichment the exact-fixpoint part needs the batch limit to
cover the backlog; the other two stages are unconditional. -/
theorem stages_idempotent_anti_join :
    (∀ (correlation_window : ℚ) (fresh_id : Nat → String) (limit : Nat)
        (raws : List RawEvent) (enriched : List EnrichedEvent),
      enriched <+: process_raw_events correlation_window fresh_id limit raws enriched ∧
      ((raws.map RawEvent.id).Nodup →
        (enriched.map (fun ee => ee.raw_event.id)).Nodup →
        ((process_raw_events correlation_window fresh_id limit raws enriched).map
          (fun ee => ee.raw_event.id)).Nodup) ∧
      (raws.length ≤ limit →
        process_raw_events correlation_window fresh_id limit raws
            (process_raw_events correlation_window fresh_id limit raws enriched) =
          process_raw_events correlation_window fresh_id limit raws enriched)) ∧
    (∀ (temporal_weight semantic_weight causal_weight cutoff_time : ℚ)
        (enriched : List EnrichedEvent) (fused : List FusedContext),
      fused <+: create_incident_contexts temporal_weight semantic_weight causal_weight
        cutoff_time enriched fused ∧
      ((fused.map FusedContext.incident_id).Nodup →
        ((create_incident_contexts temporal_weight semantic_weight causal_weight
          cutoff_time enriched fused).map FusedContext.incident_id).Nodup) ∧
      create_incident_contexts temporal_weight semantic_weight causal_weight cutoff_time
          enriched (create_incident_contexts temporal_weight semantic_weight causal_weight
            cutoff_time enriched fused) =
        create_incident_contexts temporal_weight semantic_weight causal_weight cutoff_time
          enriched fused) ∧
    (∀ (decode : String → Option (List (String × PyVal)))
        (explainer : FusedContext → Except String String) (confidence_threshold : ℚ)
        (enable_agentic_fallback : Bool) (incidents : List FusedContext)
        (results : List RCAResultRow),
      results <+: analyze_incidents decode explainer confidence_threshold
        enable_agentic_fallback incidents results ∧
      ((incidents.map FusedContext.incident_id).Nodup →
        (results.map RCAResultRow.incident_id).Nodup →
        ((analyze_incidents decode explainer confidence_threshold
          enable_agentic_fallback incidents results).map RCAResultRow.incident_id).Nodup) ∧
      analyze_incidents decode explainer confidence_threshold enable_agentic_fallback
          incidents (analyze_incidents decode explainer confidence_threshold
            enable_agentic_fallback incidents results) =
        analyze_incidents decode explainer confidence_threshold enable_agentic_fallback
          incidents results) := by
  refine ⟨?_, ?_, ?_⟩
  · intro correlation_window fresh_id limit raws enriched
    refine ⟨anti_join_run_extends _ _ _ _ _ _, ?_, ?_⟩
    · intro hr he
      have hperm := List.perm_insertionSort
        (fun a b : RawEvent => b.timestamp ≤ a.timestamp) raws
      have hsortnodup : ((List.insertionSort
          (fun a b : RawEvent => b.timestamp ≤ a.timestamp) raws).map RawEvent.id).Nodup :=
        ((hperm.map RawEvent.id).nodup_iff).mpr hr
      unfold process_raw_events
      exact anti_join_run_nodup RawEvent.id (fun ee => ee.raw_event.id)
        (enrich_single_event correlation_window fresh_id raws) (fun _ _ => rfl) limit
        (List.insertionSort (fun a b => b.timestamp ≤ a.timestamp) raws) enriched
        hsortnodup he
    · intro hlen
      unfold process_raw_events
      refine anti_join_run_twice RawEvent.id (fun ee => ee.raw_event.id)
        (enrich_single_event correlation_window fresh_id raws) (fun _ _ => rfl) limit
        (List.insertionSort (fun a b => b.timestamp ≤ a.timestamp) raws) enriched ?_
      calc (List.filter _ _).length
          ≤ (List.insertionSort
              (fun a b : RawEvent => b.timestamp ≤ a.timestamp) raws).length :=
            List.length_filter_le _ _
        _ = raws.length := List.length_insertionSort _ _
        _ ≤ limit := hlen
  · intro temporal_weight semantic_weight causal_weight cutoff_time enriched fused
    refine ⟨anti_join_run_extends _ _ _ _ _ _, ?_,
      create_incident_contexts_twice _ _ _ _ _ _⟩
    intro hf
    unfold create_incident_contexts
    refine anti_join_run_nodup (fun cid : String => cid) FusedContext.incident_id _
      (fun _ _ => rfl) _ _ fused ?_ hf
    simpa using List.nodup_dedup
      ((enriched.filter (fun e =>
        decide (cutoff_time ≤ e.raw_event.timestamp) &&
        !(fused.any (fun f => decide (f.incident_id = e.correlation_id))))).map
          (fun e => e.correlation_id))
  · intro decode explainer confidence_threshold enable_agentic_fallback incidents results
    refine ⟨anti_join_run_extends _ _ _ _ _ _, ?_, ?_⟩
    · intro hi hr
      unfold analyze_incidents
      exact anti_join_run_nodup FusedContext.incident_id RCAResultRow.incident_id
        (fun _acc incident => analyze_single_incident decode explainer confidence_threshold
          enable_agentic_fallback incident) (fun _ _ => rfl) incidents.length incidents
        results hi hr
    · unfold analyze_incidents
      exact anti_join_run_twice FusedContext.incident_id RCAResultRow.incident_id
        (fun _acc incident => analyze_single_incident decode explainer confidence_threshold
          enable_agentic_fallback incident) (fun _ _ => rfl) incidents.length incidents
        results (List.length_filter_le _ _)

/-- C6 (amended): for every non-empty correlation group the temporal context
satisfies isBurstPattern = (average inter-arrival interval < 60 seconds AND
member count > 3) and temporalIntensity = count / max(durationSeconds/60, 1);
on the Scenario C group (4 events spanning 30 seconds, average interval 10
seconds) this gives isBurstPattern = true and temporalIntensity = 4.0, not
8.0. -/
theorem temporal_context_formulas (events : List EnrichedEvent) (h : events ≠ []) :
    ((generate_temporal_context events).is_burst_pattern = true ↔
      ((generate_temporal_context events).average_interval_seconds < 60 ∧
        3 < events.length)) ∧
    (generate_temporal_context events).temporal_intensity =
      (events.length : ℚ) /
        max ((generate_temporal_context events).duration_seconds / 60) 1 ∧
    (generate_temporal_context events).event_count = events.length := by
  obtain ⟨t0, rest, hs⟩ : ∃ t0 rest,
      List.insertionSort (fun a b : ℚ => a ≤ b)
        (events.map (fun e => e.raw_event.timestamp)) = t0 :: rest := by
    cases hcase : List.insertionSort (fun a b : ℚ => a ≤ b)
        (events.map (fun e => e.raw_event.timestamp)) with
    | nil =>
      exfalso
      have hperm := List.perm_insertionSort (fun a b : ℚ => a ≤ b)
        (events.map (fun e => e.raw_event.timestamp))
      rw [hcase] at hperm
      exact h (List.map_eq_nil_iff.mp hperm.symm.eq_nil)
    | cons t0 rest => exact ⟨t0, rest, rfl⟩
  simp only [generate_temporal_context]
  rw [hs]
  dsimp only
  refine ⟨?_, ?_, rfl⟩
  · simp only [Bool.and_eq_true, decide_eq_true_eq]
  · rw [qdiv_eq, qmax_eq_max, qdiv_eq]

/-- One signal of the Scenario C correlation group. -/
def scenario_c_event (i : Nat) (ts : ℚ) : EnrichedEvent :=
  { raw_event :=
      { id := i
        source := "web-1"
        event_type := "log"
        severity := "high"
        message := "request timeout"
        metadata_keys := []
        timestamp := ts }
    correlation_id := "scenario-c"
    anomaly_score := mkRat 1 2 }

/-- The Scenario C correlation group: four events spanning 30 seconds with
average inter-arrival interval 10 seconds. -/
def scenario_c_group : List EnrichedEvent :=
  [scenario_c_event 0 0, scenario_c_event 1 10, scenario_c_event 2 20,
   scenario_c_event 3 30]

/-- C6 counterexample: on the Scenario C group the code (and the formula
count / max(duration/60, 1) of the claim itself, since max(30/60, 1) = 1)
gives temporal intensity 4, not the 8.0 the claim asserts; the burst flag is
true as claimed. -/
theorem temporal_intensity_scenario_counterexample :
    (generate_temporal_context scenario_c_group).event_count = 4 ∧
    (generate_temporal_context scenario_c_group).duration_seconds = 30 ∧
    (generate_temporal_context scenario_c_group).average_interval_seconds = 10 ∧
    (generate_temporal_context scenario_c_group).is_burst_pattern = true ∧
    (generate_temporal_context scenario_c_group).temporal_intensity = 4 ∧
    ¬(generate_temporal_context scenario_c_group).temporal_intensity = 8 := by
  refine ⟨by decide, by decide, by decide, by decide, by decide, by decide⟩

/-- C6 witness: the amended formulas instantiated at the Scenario C group. -/
theorem temporal_context_formulas_witness :
    ((generate_temporal_context scenario_c_group).is_burst_pattern = true ↔
      ((generate_temporal_context scenario_c_group).average_interval_seconds < 60 ∧
        3 < scenario_c_group.length)) ∧
    (generate_temporal_context scenario_c_group).temporal_intensity =
      (scenario_c_group.length : ℚ) /
        max ((generate_temporal_context scenario_c_group).duration_seconds / 60) 1 ∧
    (generate_temporal_context scenario_c_group).event_count = scenario_c_group.length :=
  temporal_context_formulas scenario_c_group (by decide)

theorem foldl_qmax_init_le (l : List ℚ) : ∀ b : ℚ, b ≤ l.foldl qmax b := by
  induction l with
  | nil => intro b; exact le_refl b
  | cons x t ih =>
    intro b
    rw [List.foldl_cons]
    exact le_trans (by rw [qmax_eq_max]; exact le_max_left b x) (ih (qmax b x))

theorem list_mean_nonneg (l : List ℚ) (h : ∀ x ∈ l, 0 ≤ x) : 0 ≤ list_mean l := by
  unfold list_mean
  rw [qdiv_eq, qsum_eq]
  exact div_nonneg (List.sum_nonneg h) (Nat.cast_nonneg _)

theorem temporal_intensity_nonneg (events : List EnrichedEvent) :
    0 ≤ (generate_temporal_context events).temporal_intensity := by
  unfold generate_temporal_context
  cases List.insertionSort (fun a b : ℚ => a ≤ b)
      (events.map (fun e => e.raw_event.timestamp)) with
  | nil => exact le_refl 0
  | cons t0 rest =>
    dsimp only
    rw [qdiv_eq, qmax_eq_max]
    refine div_nonneg (Nat.cast_nonneg _) ?_
    exact le_trans zero_le_one (le_max_right _ 1)

theorem chain_likelihood_nonneg (l : List EnrichedEvent) :
    ∀ c ∈ identify_causal_chains l, 0 ≤ c.causal_likelihood := by
  intro c hc
  unfold identify_causal_chains at hc
  rcases List.mem_filterMap.mp hc with ⟨p, _hp, heq⟩
  dsimp only at heq
  split_ifs at heq with htd
  · cases heq
    dsimp only
    rw [qmax_eq_max]
    exact le_max_left 0 _

theorem dedup_causes_subset :
    ∀ (l : List RootCauseCandidate) (seen : List (String × String)),
      dedup_causes l seen ⊆ l := by
  intro l
  induction l with
  | nil => intro seen; simp [dedup_causes]
  | cons c rest ih =>
    intro seen
    unfold dedup_causes
    split_ifs
    · exact (ih seen).trans (List.subset_cons_self c rest)
    · intro x hx
      rcases List.mem_cons.mp hx with rfl | hx2
      · exact List.mem_cons_self _ rest
      · exact List.mem_cons_of_mem c (ih _ hx2)

theorem cause_confidence_pos (l : List EnrichedEvent) :
    ∀ c ∈ identify_potential_root_causes l, 0 < c.confidence := by
  intro c hc
  unfold identify_potential_root_causes at hc
  cases l with
  | nil => simp at hc
  | cons first tail =>
    dsimp only at hc
    have hmem := (List.take_sublist 3 _).subset hc
    have hmem2 := (List.perm_insertionSort
      (fun a b : RootCauseCandidate => b.confidence ≤ a.confidence) _).subset hmem
    have hmem3 := dedup_causes_subset _ _ hmem2
    rcases List.mem_append.mp hmem3 with h1 | h2
    · split_ifs at h1 with hgt
      · rcases List.mem_singleton.mp h1 with rfl
        have hhalf : (0 : ℚ) < mkRat 1 2 := by
          rw [mkRat_eq_div]
          norm_num
        exact lt_trans hhalf hgt
      · exact absurd h1 (List.not_mem_nil c)
    · rcases List.mem_filterMap.mp h2 with ⟨e, _he, heq⟩
      split_ifs at heq with hgt
      · cases heq
        have hfour : (0 : ℚ) < mkRat 4 5 := by
          rw [mkRat_eq_div]
          norm_num
        exact lt_trans hfour hgt

theorem causal_strength_nonneg (events : List EnrichedEvent) :
    0 ≤ (generate_causal_context events).causal_strength := by
  show 0 ≤ calculate_causal_strength
    (identify_causal_chains (List.insertionSort
      (fun a b => a.raw_event.timestamp ≤ b.raw_event.timestamp) events))
    (analyze_anomaly_progression events)
  unfold calculate_causal_strength
  by_cases hemp : (identify_causal_chains (List.insertionSort
      (fun a b => a.raw_event.timestamp ≤ b.raw_event.timestamp) events)).isEmpty = true
  · rw [if_pos hemp]
  · rw [if_neg hemp]
    have hmean : 0 ≤ list_mean ((identify_causal_chains (List.insertionSort
        (fun a b => a.raw_event.timestamp ≤ b.raw_event.timestamp) events)).map
          (fun c => c.causal_likelihood)) := by
      refine list_mean_nonneg _ ?_
      intro x hx
      rcases List.mem_map.mp hx with ⟨ch, hch, rfl⟩
      exact chain_likelihood_nonneg _ ch hch
    have hboost : (0:ℚ) ≤ (if (analyze_anomaly_progression events).anomaly_trend =
        "increasing" then mkRat 1 5 else 0) := by
      split_ifs
      · rw [mkRat_eq_div]; norm_num
      · exact le_refl 0
    rw [qmin_eq_min, qadd_eq]
    exact le_min (by norm_num) (add_nonneg hmean hboost)

theorem root_cause_confidence_nonneg (events : List EnrichedEvent) :
    0 ≤ (generate_causal_context events).root_cause_confidence := by
  show 0 ≤ calculate_root_cause_confidence (identify_potential_root_causes
    (List.insertionSort (fun a b => a.raw_event.timestamp ≤ b.raw_event.timestamp) events))
  unfold calculate_root_cause_confidence
  cases hcs : identify_potential_root_causes (List.insertionSort
      (fun a b => a.raw_event.timestamp ≤ b.raw_event.timestamp) events) with
  | nil => exact le_refl 0
  | cons c rest =>
    have hpos : 0 < c.confidence :=
      cause_confidence_pos
        (List.insertionSort (fun a b => a.raw_event.timestamp ≤ b.raw_event.timestamp)
          events) c (by rw [hcs]; exact List.mem_cons_self c rest)
    exact le_trans hpos.le (foldl_qmax_init_le _ c.confidence)

theorem mkRat_nonneg_of (n : Nat) (d : Nat) : (0:ℚ) ≤ mkRat n d := by
  rw [mkRat_eq_div]
  positivity

/-- C7: for every incident the Fusion Engine creates from a non-empty
correlation group, with positive configured weights, the fusion score lies
in the unit interval. -/
theorem fusion_score_bounds (correlation_id : String) (events : List EnrichedEvent)
    (temporal_weight semantic_weight causal_weight : ℚ) (hne : events ≠ [])
    (hwt : 0 < temporal_weight) (hws : 0 < semantic_weight)
    (hwc : 0 < causal_weight) :
    0 ≤ (create_fused_context temporal_weight semantic_weight causal_weight
      correlation_id events).fusion_score ∧
    (create_fused_context temporal_weight semantic_weight causal_weight
      correlation_id events).fusion_score ≤ 1 := by
  have hscore : (create_fused_context temporal_weight semantic_weight causal_weight
      correlation_id events).fusion_score =
      calculate_fusion_score (generate_temporal_context events)
        (generate_semantic_context events) (generate_causal_context events)
        temporal_weight semantic_weight causal_weight := rfl
  rw [hscore]
  unfold calculate_fusion_score
  simp only [qadd_eq, qmul_eq, qmin_eq_min, qdiv_eq]
  have ht : 0 ≤ min 1 ((generate_temporal_context events).temporal_intensity / 10) +
      (if (generate_temporal_context events).is_burst_pattern = true then mkRat 1 5
       else 0) := by
    refine add_nonneg (le_min (by norm_num)
      (div_nonneg (temporal_intensity_nonneg events) (by norm_num))) ?_
    split_ifs
    · exact mkRat_nonneg_of 1 5
    · exact le_refl 0
  have hs : 0 ≤ (if (generate_semantic_context events).max_severity = "critical" then
        mkRat 2 5
      else if (generate_semantic_context events).max_severity = "high" then mkRat 3 10
      else 0) +
      (if (generate_semantic_context events).is_multi_service = true then mkRat 3 10
       else 0) +
      min (mkRat 3 10) (((generate_semantic_context events).type_diversity : ℚ) / 10) := by
    refine add_nonneg (add_nonneg ?_ ?_) ?_
    · split_ifs
      · exact mkRat_nonneg_of 2 5
      · exact mkRat_nonneg_of 3 10
      · exact le_refl 0
    · split_ifs
      · exact mkRat_nonneg_of 3 10
      · exact le_refl 0
    · exact le_min (mkRat_nonneg_of 3 10) (div_nonneg (Nat.cast_nonneg _) (by norm_num))
  have hc : 0 ≤ (generate_causal_context events).causal_strength * mkRat 3 5 +
      (generate_causal_context events).root_cause_confidence * mkRat 2 5 :=
    add_nonneg (mul_nonneg (causal_strength_nonneg events) (mkRat_nonneg_of 3 5))
      (mul_nonneg (root_cause_confidence_nonneg events) (mkRat_nonneg_of 2 5))
  constructor
  · refine le_min (by norm_num) ?_
    exact add_nonneg (add_nonneg (mul_nonneg ht hwt.le) (mul_nonneg hs hws.le))
      (mul_nonneg hc hwc.le)
  · exact min_le_left 1 _

/-- C7 witness: the bounds at the Scenario C group with the default config
weights 0.4/0.3/0.3. -/
theorem fusion_score_bounds_witness :
    0 ≤ (create_fused_context (mkRat 4 10) (mkRat 3 10) (mkRat 3 10) "scenario-c"
      scenario_c_group).fusion_score ∧
    (create_fused_context (mkRat 4 10) (mkRat 3 10) (mkRat 3 10) "scenario-c"
      scenario_c_group).fusion_score ≤ 1 :=
  fusion_score_bounds "scenario-c" scenario_c_group (mkRat 4 10) (mkRat 3 10) (mkRat 3 10)
    (by decide) (by decide) (by decide) (by decide)

/-- The weighted sum of the three sub-scores before the final clamp, written
with the ordinary field operations: the quantity the fusion score clamps. -/
def fusion_weighted_sum (temporal_context : TemporalContext)
    (semantic_context : SemanticContext) (causal_context : CausalContext)
    (temporal_weight semantic_weight causal_weight : ℚ) : ℚ :=
  let temporal_score := min 1 (temporal_context.temporal_intensity / 10) +
    (if temporal_context.is_burst_pattern then mkRat 1 5 else 0)
  let severity_bonus : ℚ :=
    if semantic_context.max_severity = "critical" then mkRat 2 5
    else if semantic_context.max_severity = "high" then mkRat 3 10
    else 0
  let semantic_score := severity_bonus +
    (if semantic_context.is_multi_service then mkRat 3 10 else 0) +
    min (mkRat 3 10) ((semantic_context.type_diversity : ℚ) / 10)
  let causal_score := causal_context.causal_strength * mkRat 3 5 +
    causal_context.root_cause_confidence * mkRat 2 5
  temporal_score * temporal_weight + semantic_score * semantic_weight +
    causal_score * causal_weight

/-- C9 (amended): the engine does not normalize the weights; the fusion
score is exactly min(1, weightedSum), so scaling every weight by k scales
the pre-clamp weighted sum by k instead of leaving the score unchanged. -/
theorem fusion_score_weight_scaling (temporal_context : TemporalContext)
    (semantic_context : SemanticContext) (causal_context : CausalContext)
    (temporal_weight semantic_weight causal_weight k : ℚ) :
    calculate_fusion_score temporal_context semantic_context causal_context
        temporal_weight semantic_weight causal_weight =
      min 1 (fusion_weighted_sum temporal_context semantic_context causal_context
        temporal_weight semantic_weight causal_weight) ∧
    calculate_fusion_score temporal_context semantic_context causal_context
        (k * temporal_weight) (k * semantic_weight) (k * causal_weight) =
      min 1 (k * fusion_weighted_sum temporal_context semantic_context causal_context
        temporal_weight semantic_weight causal_weight) := by
  unfold calculate_fusion_score fusion_weighted_sum
  simp only [qadd_eq, qmul_eq, qmin_eq_min, qdiv_eq]
  constructor
  · trivial
  · congr 1
    ring

/-- C9 counterexample: on the Scenario C group, doubling all three weights
from 0.1 to 0.2 changes the fusion score, so the engine does not tolerate
weight scaling by normalizing. -/
theorem fusion_weight_scaling_counterexample :
    (mkRat 2 10) = 2 * (mkRat 1 10) ∧
    calculate_fusion_score (generate_temporal_context scenario_c_group)
        (generate_semantic_context scenario_c_group)
        (generate_causal_context scenario_c_group)
        (mkRat 2 10) (mkRat 2 10) (mkRat 2 10) ≠
      calculate_fusion_score (generate_temporal_context scenario_c_group)
        (generate_semantic_context scenario_c_group)
        (generate_causal_context scenario_c_group)
        (mkRat 1 10) (mkRat 1 10) (mkRat 1 10) := by
  constructor
  · rw [mkRat_eq_div, mkRat_eq_div]
    norm_num
  · decide

/-- The Explainer output of Scenario D: confidence 0.55 with its own fix
text. -/
def scenario_d_rca : LlmRca :=
  { root_cause := .str "database connection pool exhausted"
    confidence_score := mkRat 55 100
    suggested_fix := .str "increase the connection pool size"
    llm_reasoning := .str "correlated spikes in connection errors" }

/-- C1: an incident analyzed from the unanalyzed state is routed by the
confidence gate against threshold/100: at or above the threshold the state
is ANALYZED; below it, with the deep-analysis fallback enabled, the state is
PENDING_DEEP and the fix text is replaced by the deeper-analysis
placeholder; below it without the fallback the state is
ANALYZED_LOW_CONFIDENCE.  Scenario D (confidence 0.55, threshold 80,
fallback enabled) lands in PENDING_DEEP with the placeholder fix, not the
original one. -/
theorem route_analysis_confidence_gate :
    (∀ (rca : LlmRca) (confidence_threshold : ℚ),
      (confidence_threshold / 100 ≤ rca.confidence_score →
        ∀ enable_agentic_fallback,
          route_analysis rca confidence_threshold enable_agentic_fallback =
            (rca, ANALYZED)) ∧
      (rca.confidence_score < confidence_threshold / 100 →
        route_analysis rca confidence_threshold true =
          ({ rca with suggested_fix := deeper_analysis_fix }, PENDING_DEEP)) ∧
      (rca.confidence_score < confidence_threshold / 100 →
        route_analysis rca confidence_threshold false =
          (rca, ANALYZED_LOW_CONFIDENCE))) ∧
    (route_analysis scenario_d_rca 80 true).2 = PENDING_DEEP ∧
    (route_analysis scenario_d_rca 80 true).1.suggested_fix = deeper_analysis_fix ∧
    (route_analysis scenario_d_rca 80 true).1.suggested_fix ≠
      scenario_d_rca.suggested_fix := by
  refine ⟨?_, by decide, by decide, by decide⟩
  intro rca confidence_threshold
  unfold route_analysis
  rw [qdiv_eq]
  refine ⟨fun h fb => ?_, fun h => ?_, fun h => ?_⟩
  · rw [if_neg (not_lt.mpr h)]
  · rw [if_pos h, if_pos rfl]
  · rw [if_pos h, if_neg (by simp)]

theorem anti_join_run_length {α β κ : Type} [DecidableEq κ] (inKey : α → κ)
    (outKey : β → κ) (mk : List β → α → β)
    (hk : ∀ acc a, outKey (mk acc a) = inKey a) (limit : Nat) (inputs : List α)
    (out0 : List β) :
    (anti_join_run inKey outKey mk limit inputs out0).length =
      out0.length +
        ((inputs.filter (fun a => !(out0.any (fun b => decide (outKey b = inKey a))))).take
          limit).length := by
  have h := congrArg List.length (anti_join_run_keys inKey outKey mk hk limit inputs out0)
  simpa using h

theorem route_analysis_preserves (rca : LlmRca) (confidence_threshold : ℚ)
    (enable_agentic_fallback : Bool) :
    (route_analysis rca confidence_threshold enable_agentic_fallback).1.confidence_score =
      rca.confidence_score ∧
    (route_analysis rca confidence_threshold enable_agentic_fallback).1.root_cause =
      rca.root_cause ∧
    (route_analysis rca confidence_threshold enable_agentic_fallback).1.llm_reasoning =
      rca.llm_reasoning := by
  unfold route_analysis
  split_ifs <;> exact ⟨rfl, rfl, rfl⟩

/-- C8: a failing Explainer does not propagate: the generated analysis is
the fixed placeholder with confidence exactly 0.1, the generic root-cause
text and the manual-investigation fix; the stored row keeps that confidence
and root cause; and the batch still produces one row for every unanalyzed
incident, whatever the Explainer does. -/
theorem explainer_failure_placeholder :
    (∀ (decode : String → Option (List (String × PyVal))) (e : String),
      generate_llm_rca decode (Except.error e) =
        { root_cause := .str "Unable to determine root cause due to LLM error"
          confidence_score := mkRat 1 10
          suggested_fix := .str "Manual investigation required"
          llm_reasoning := .str ("LLM error: " ++ e) }) ∧
    (∀ (decode : String → Option (List (String × PyVal)))
        (explainer : FusedContext → Except String String) (confidence_threshold : ℚ)
        (enable_agentic_fallback : Bool) (incident : FusedContext) (e : String),
      explainer incident = Except.error e →
        (analyze_single_incident decode explainer confidence_threshold
          enable_agentic_fallback incident).confidence_score = mkRat 1 10 ∧
        (analyze_single_incident decode explainer confidence_threshold
          enable_agentic_fallback incident).root_cause =
            .str "Unable to determine root cause due to LLM error") ∧
    (∀ (decode : String → Option (List (String × PyVal)))
        (explainer : FusedContext → Except String String) (confidence_threshold : ℚ)
        (enable_agentic_fallback : Bool) (incidents : List FusedContext)
        (results : List RCAResultRow),
      (analyze_incidents decode explainer confidence_threshold enable_agentic_fallback
          incidents results).length =
        results.length +
          ((incidents.filter (fun inc =>
            !(results.any (fun r =>
              decide (r.incident_id = inc.incident_id))))).take incidents.length).length) := by
  refine ⟨fun decode e => rfl, ?_, ?_⟩
  · intro decode explainer confidence_threshold enable_agentic_fallback incident e hexp
    have hpres := route_analysis_preserves (generate_llm_rca decode (explainer incident))
      confidence_threshold enable_agentic_fallback
    unfold analyze_single_incident
    rw [hexp] at hpres ⊢
    exact ⟨hpres.1, hpres.2.1⟩
  · intro decode explainer confidence_threshold enable_agentic_fallback incidents results
    unfold analyze_incidents
    exact anti_join_run_length FusedContext.incident_id RCAResultRow.incident_id
      (fun _acc incident => analyze_single_incident decode explainer confidence_threshold
        enable_agentic_fallback incident) (fun _ _ => rfl) incidents.length incidents
      results

theorem confidence_factors_nonneg (ctx : ExternalContext) :
    ∀ q ∈ confidence_factors ctx, 0 ≤ q := by
  intro q hq
  unfold confidence_factors at hq
  rcases List.mem_append.mp hq with hq123 | hq4
  · rcases List.mem_append.mp hq123 with hq12 | hq3
    · rcases List.mem_append.mp hq12 with hq1 | hq2
      · cases hmon : ctx.monitoring with
        | none => rw [hmon] at hq1; simp at hq1
        | some m =>
          rw [hmon] at hq1
          rcases List.mem_append.mp hq1 with hcpu | hdown
          · split_ifs at hcpu
            · rcases List.mem_singleton.mp hcpu with rfl
              exact mkRat_nonneg_of 1 5
            · simp at hcpu
          · split_ifs at hdown
            · rcases List.mem_singleton.mp hdown with rfl
              exact mkRat_nonneg_of 3 10
            · simp at hdown
      · cases hgit : ctx.github with
        | none => rw [hgit] at hq2; simp at hq2
        | some g =>
          rw [hgit] at hq2
          rcases List.mem_append.mp hq2 with hdep | hiss
          · rcases List.mem_map.mp hdep with ⟨_, _, rfl⟩
            exact mkRat_nonneg_of 1 4
          · rcases List.mem_filterMap.mp hiss with ⟨issue, _, heq⟩
            split_ifs at heq
            · cases heq
              exact mkRat_nonneg_of 1 5
    · cases hsrc : ctx.source_analysis with
      | none => rw [hsrc] at hq3; simp at hq3
      | some s =>
        rw [hsrc] at hq3
        rcases List.mem_filterMap.mp hq3 with ⟨hotspot, _, heq⟩
        split_ifs at heq
        · cases heq
          exact mkRat_nonneg_of 3 20
  · cases hext : ctx.external_status with
    | none => rw [hext] at hq4; simp at hq4
    | some e =>
      rw [hext] at hq4
      rcases List.mem_append.mp hq4 with hcloud | hdeg
      · rcases List.mem_map.mp hcloud with ⟨_, _, rfl⟩
        exact mkRat_nonneg_of 1 10
      · rcases List.mem_filterMap.mp hdeg with ⟨dep, _, heq⟩
        split_ifs at heq
        · cases heq
          exact mkRat_nonneg_of 3 20

theorem confidence_boost_nonneg (ctx : ExternalContext) :
    0 ≤ qmin (mkRat 3 10) (qsum (confidence_factors ctx)) := by
  rw [qmin_eq_min, qsum_eq]
  exact le_min (mkRat_nonneg_of 3 10) (List.sum_nonneg (confidence_factors_nonneg ctx))

/-- C3 (amended): after the PENDING_DEEP to DEEP_ANALYZED transition the
confidence is at most 0.95 (at most 0.85 on the synthesis-error fallback),
and it is at least the pre-deep confidence whenever that confidence is at
most 0.85 (on the successful-synthesis path, at most 0.95 suffices); the
success path computes min(0.95, original + min(0.3, sum of the evidence
weights)). -/
theorem deep_confidence_bounds_amended :
    ∀ (original_confidence : ℚ) (ctx : ExternalContext),
      (synthesize_confidence original_confidence ctx ≤ mkRat 19 20) ∧
      (synthesize_fallback_confidence original_confidence ≤ mkRat 17 20) ∧
      (original_confidence ≤ mkRat 19 20 →
        original_confidence ≤ synthesize_confidence original_confidence ctx) ∧
      (original_confidence ≤ mkRat 17 20 →
        original_confidence ≤ synthesize_fallback_confidence original_confidence) ∧
      (∀ (synthesis_fails : Bool) (row : RCAResultRow),
        (perform_agentic_analysis ctx synthesis_fails row).analysis_method =
          DEEP_ANALYZED ∧
        (perform_agentic_analysis ctx synthesis_fails row).confidence_score ≤
          mkRat 19 20 ∧
        (row.confidence_score ≤ mkRat 17 20 →
          row.confidence_score ≤
            (perform_agentic_analysis ctx synthesis_fails row).confidence_score)) := by
  intro original_confidence ctx
  have hboost := confidence_boost_nonneg ctx
  have hsynth_le : synthesize_confidence original_confidence ctx ≤ mkRat 19 20 := by
    unfold synthesize_confidence
    rw [qmin_eq_min]
    exact min_le_left _ _
  have hfall_le : synthesize_fallback_confidence original_confidence ≤ mkRat 17 20 := by
    unfold synthesize_fallback_confidence
    rw [qmin_eq_min]
    exact min_le_left _ _
  have hsynth_mono : original_confidence ≤ mkRat 19 20 →
      original_confidence ≤ synthesize_confidence original_confidence ctx := by
    intro h
    unfold synthesize_confidence
    rw [qmin_eq_min, qadd_eq]
    exact le_min h (by linarith)
  have hfall_mono : original_confidence ≤ mkRat 17 20 →
      original_confidence ≤ synthesize_fallback_confidence original_confidence := by
    intro h
    unfold synthesize_fallback_confidence
    rw [qmin_eq_min, qadd_eq]
    have htenth : (0:ℚ) ≤ mkRat 1 10 := mkRat_nonneg_of 1 10
    exact le_min h (by linarith)
  refine ⟨hsynth_le, hfall_le, hsynth_mono, hfall_mono, ?_⟩
  intro synthesis_fails row
  have h1720 : (mkRat 17 20 : ℚ) ≤ mkRat 19 20 := by decide
  cases synthesis_fails with
  | true =>
    refine ⟨rfl, ?_, ?_⟩
    · show synthesize_fallback_confidence row.confidence_score ≤ mkRat 19 20
      exact le_trans (by
        unfold synthesize_fallback_confidence
        rw [qmin_eq_min]
        exact min_le_left _ _) h1720
    · intro h
      show row.confidence_score ≤ synthesize_fallback_confidence row.confidence_score
      unfold synthesize_fallback_confidence
      rw [qmin_eq_min, qadd_eq]
      have htenth : (0:ℚ) ≤ mkRat 1 10 := mkRat_nonneg_of 1 10
      exact le_min h (by linarith)
  | false =>
    refine ⟨rfl, ?_, ?_⟩
    · show synthesize_confidence row.confidence_score ctx ≤ mkRat 19 20
      unfold synthesize_confidence
      rw [qmin_eq_min]
      exact min_le_left _ _
    · intro h
      show row.confidence_score ≤ synthesize_confidence row.confidence_score ctx
      unfold synthesize_confidence
      rw [qmin_eq_min, qadd_eq]
      exact le_min (le_trans h h1720) (by linarith)

/-- An external context in which every tool came back empty. -/
def empty_external_context : ExternalContext :=
  { monitoring := none, github := none, source_analysis := none,
    external_status := none }

/-- A stored RCA row waiting for deep analysis with pre-deep confidence
0.9. -/
def pending_deep_row : RCAResultRow :=
  { incident_id := "incident-1"
    root_cause := .str "suspected capacity issue"
    confidence_score := mkRat 9 10
    suggested_fix := deeper_analysis_fix
    analysis_method := PENDING_DEEP
    llm_reasoning := .str "weak correlation evidence" }

/-- The Explainer output that produces that row under threshold 95 with the
fallback enabled. -/
def pending_deep_llm : LlmRca :=
  { root_cause := .str "suspected capacity issue"
    confidence_score := mkRat 9 10
    suggested_fix := .str "scale up the affected service"
    llm_reasoning := .str "weak correlation evidence" }

/-- C3 counterexample: a pre-deep confidence of 0.9 is reachable in
PENDING_DEEP (threshold 95, fallback enabled), and the synthesis-error
fallback of the deep analysis caps the new confidence at 0.85, strictly
below the pre-deep confidence: the claimed monotonicity fails. -/
theorem deep_confidence_monotonicity_counterexample :
    (route_analysis pending_deep_llm 95 true).2 = PENDING_DEEP ∧
    (route_analysis pending_deep_llm 95 true).1.confidence_score = mkRat 9 10 ∧
    pending_deep_row.analysis_method = PENDING_DEEP ∧
    (perform_agentic_analysis empty_external_context true
      pending_deep_row).analysis_method = DEEP_ANALYZED ∧
    (perform_agentic_analysis empty_external_context true
      pending_deep_row).confidence_score < pending_deep_row.confidence_score := by
  refine ⟨by decide, by decide, by decide, by decide, by decide⟩

/-- C10: every confidence score the pipeline stores lies in the unit
interval, for every possible Explainer response and decoder behaviour: the
parser coerces a missing, non-numeric or out-of-range confidence to 0.5,
the non-JSON fallback yields 0.3, Explainer failure yields 0.1, routing
stores the parsed confidence unchanged, and deep-analysis synthesis caps
the updated confidence at 0.95 (0.85 on its error path), preserving the
interval. -/
theorem stored_confidence_in_unit_interval :
    (∀ v : Option PyVal, 0 ≤ coerce_confidence v ∧ coerce_confidence v ≤ 1) ∧
    (coerce_confidence none = mkRat 1 2) ∧
    (∀ s, coerce_confidence (some (.str s)) = mkRat 1 2) ∧
    (coerce_confidence (some .composite) = mkRat 1 2) ∧
    (∀ q : ℚ, ¬(0 ≤ q ∧ q ≤ 1) → coerce_confidence (some (.num q)) = mkRat 1 2) ∧
    (∀ response_text, (fallback_parse response_text).confidence_score = mkRat 3 10) ∧
    (∀ (decode : String → Option (List (String × PyVal)))
        (llm_response : Except String String),
      0 ≤ (generate_llm_rca decode llm_response).confidence_score ∧
      (generate_llm_rca decode llm_response).confidence_score ≤ 1) ∧
    (∀ (decode : String → Option (List (String × PyVal)))
        (explainer : FusedContext → Except String String) (confidence_threshold : ℚ)
        (enable_agentic_fallback : Bool) (incident : FusedContext),
      0 ≤ (analyze_single_incident decode explainer confidence_threshold
        enable_agentic_fallback incident).confidence_score ∧
      (analyze_single_incident decode explainer confidence_threshold
        enable_agentic_fallback incident).confidence_score ≤ 1) ∧
    (∀ (ctx : ExternalContext) (synthesis_fails : Bool) (row : RCAResultRow),
      0 ≤ row.confidence_score → row.confidence_score ≤ 1 →
      0 ≤ (perform_agentic_analysis ctx synthesis_fails row).confidence_score ∧
      (perform_agentic_analysis ctx synthesis_fails row).confidence_score ≤ 1) := by
  have hhalf : (0:ℚ) ≤ mkRat 1 2 ∧ (mkRat 1 2 : ℚ) ≤ 1 := by
    constructor <;> decide
  have hco : ∀ v : Option PyVal, 0 ≤ coerce_confidence v ∧ coerce_confidence v ≤ 1 := by
    intro v
    unfold coerce_confidence
    match v with
    | none => exact hhalf
    | some (.str s) => exact hhalf
    | some .composite => exact hhalf
    | some (.num q) =>
      dsimp only
      split_ifs with h
      · exact ⟨h.1, h.2⟩
      · exact hhalf
  have hparse : ∀ (decode : String → Option (List (String × PyVal))) (response_text : String),
      0 ≤ (parse_llm_response decode response_text).confidence_score ∧
      (parse_llm_response decode response_text).confidence_score ≤ 1 := by
    intro decode response_text
    unfold parse_llm_response
    have hfb : (fallback_parse response_text).confidence_score = mkRat 3 10 := rfl
    split_ifs with hbrace
    · cases hdec : decode (extract_json_region response_text) with
      | none =>
        dsimp only
        rw [hfb]
        constructor <;> decide
      | some parsed =>
        dsimp only
        exact hco (lookup_field parsed "confidence_score")
    · rw [hfb]
      constructor <;> decide
  have hgen : ∀ (decode : String → Option (List (String × PyVal)))
      (llm_response : Except String String),
      0 ≤ (generate_llm_rca decode llm_response).confidence_score ∧
      (generate_llm_rca decode llm_response).confidence_score ≤ 1 := by
    intro decode llm_response
    cases llm_response with
    | ok response_text => exact hparse decode response_text
    | error e =>
      have he : (generate_llm_rca decode (Except.error e)).confidence_score =
          mkRat 1 10 := rfl
      rw [he]
      constructor <;> decide
  refine ⟨hco, rfl, fun s => rfl, rfl, ?_, fun response_text => rfl, hgen, ?_, ?_⟩
  · intro q hq
    unfold coerce_confidence
    dsimp only
    rw [if_neg hq]
  · intro decode explainer confidence_threshold enable_agentic_fallback incident
    have hpres := (route_analysis_preserves
      (generate_llm_rca decode (explainer incident)) confidence_threshold
      enable_agentic_fallback).1
    have hrow : (analyze_single_incident decode explainer confidence_threshold
        enable_agentic_fallback incident).confidence_score =
        (generate_llm_rca decode (explainer incident)).confidence_score := hpres
    rw [hrow]
    exact hgen decode (explainer incident)
  · intro ctx synthesis_fails row h0 h1
    have hboost := confidence_boost_nonneg ctx
    have h1720 : ((mkRat 17 20 : ℚ)) ≤ 1 := by decide
    have h1920 : ((mkRat 19 20 : ℚ)) ≤ 1 := by decide
    have htenth : (0:ℚ) ≤ mkRat 1 10 := mkRat_nonneg_of 1 10
    cases synthesis_fails with
    | true =>
      show 0 ≤ synthesize_fallback_confidence row.confidence_score ∧
        synthesize_fallback_confidence row.confidence_score ≤ 1
      unfold synthesize_fallback_confidence
      rw [qmin_eq_min, qadd_eq]
      constructor
      · exact le_min (by decide) (by linarith)
      · exact le_trans (min_le_left _ _) h1720
    | false =>
      show 0 ≤ synthesize_confidence row.confidence_score ctx ∧
        synthesize_confidence row.confidence_score ctx ≤ 1
      unfold synthesize_confidence
      rw [qmin_eq_min, qadd_eq]
      constructor
      · exact le_min (by decide) (by linarith)
      · exact le_trans (min_le_left _ _) h1920
